import Mathlib

/-!
Shallow embedding of the two Ansible modules of this repository:
`cloud/gc_dns.py` (Google Cloud DNS zones and records, via libcloud) and
`clustering/gke.py` (Google Container Engine clusters, via the Google API
client).  The vendor SDK is an external collaborator and is modelled as an
abstract Resource Client interface (a structure of state-threading
functions); the control flow of each module `main` is translated branch by
branch from the Python source.  Runs are instrumented with the list of
Resource Client calls performed, the number of sleep-then-fetch polling
cycles, and a flag recording whether a mutating provider call was accepted.
-/

namespace GcModules

/-- Python truthiness of an optional string module parameter:
`None` and the empty string are falsy, every other string is truthy. -/
def isTruthy : Option String → Bool
  | none => false
  | some s => !(s == "")

/-- Python string interpolation of a possibly absent parameter:
`"%s" % None` renders as `"None"`. -/
def pyStr : Option String → String
  | none => "None"
  | some s => s

/-- The test `s[-1] == "."` on a nonempty Python string:
the last character is a dot. -/
def lastCharIsDot (s : String) : Bool :=
  match s.data.getLast? with
  | some c => c == '.'
  | none => false

/-- Helper for `pySplitComma`, walking the character list with an
accumulator for the current field. -/
def pySplitCommaAux : List Char → List Char → List String
  | [], acc => [String.mk acc.reverse]
  | c :: cs, acc =>
    if c == ',' then String.mk acc.reverse :: pySplitCommaAux cs []
    else pySplitCommaAux cs (c :: acc)

/-- Python `s.split(",")`: split on every comma, preserving order and
empty fields (`"a,".split(",") == ["a", ""]`). -/
def pySplitComma (s : String) : List String :=
  pySplitCommaAux s.data []

/-! ## The DNS module `cloud/gc_dns.py` -/

/-- Exceptions the libcloud DNS driver can raise, as seen by the module:
the two typed not-found errors it catches by class, and any other
provider exception, which the module inspects through its `http_code`
attribute. -/
inductive DnsErr where
  | zoneNotFound
  | recordNotFound
  | http (code : Nat)

/-- A libcloud zone object (the module only passes it around). -/
structure Zone where
  id : String
  domain : String

/-- A libcloud record object.  libcloud record ids have the shape
`"TYPE:name"`; the zone id ties the record to its zone. -/
structure DnsRecord where
  id : String
  zoneId : String

/-- The `ttl` entry of the data dict submitted to `create_record`: the
module passes the parameter string through unchanged, or the integer
86400 when the parameter is falsy. -/
inductive TtlV where
  | fromParam (s : String)
  | defaulted (n : Nat)

/-- The `data` dict submitted to `create_record`
(`{'ttl': ttl, 'rrdatas': value}`). -/
structure RecSubmit where
  ttl : TtlV
  rrdatas : List String

/-- The `extra` dict submitted to `create_zone`
(`{'name': name, 'description': description}`). -/
structure ZoneExtra where
  name : String
  description : String

/-- The output dictionary built by the module, tracked symbolically:
the flattened (`to_dict`) provider objects, plus the key insertions the
idempotent-delete handlers perform on the current output. -/
inductive DnsPayload where
  | emptyP
  | zoneD (z : Zone)
  | recordD (r : DnsRecord)
  | zonesD (zs : List Zone)
  | recordsD (rs : List DnsRecord)
  | addRecordKeys (base : DnsPayload) (record : Option String)
      (rtype : Option String) (name : Option String)
  | addNameKey (base : DnsPayload) (name : Option String)

/-- Final output mapping of a successful run: the payload plus the
`changed` and `command` keys added at the end of `main`. -/
structure DnsOutput where
  payload : DnsPayload
  changed : Bool
  command : String

/-- How a gc_dns invocation terminates: `exitOk` models
`print json.dumps(output); sys.exit(0)`, `failJson` models
`module.fail_json(msg=..., changed=...)` (exit non-zero), and `crashed`
models an exception escaping `main` uncaught (an `AttributeError` on a
typed error without `http_code`, or an exception raised inside an
`except` handler). -/
inductive DnsOutcome where
  | exitOk (out : DnsOutput)
  | failJson (msg : String) (changed : Option Bool)
  | crashed

/-- One Resource Client operation performed by the DNS module, with the
arguments the module submitted. -/
inductive DnsCall where
  | getZoneC (name : String)
  | iterZonesC
  | iterRecordsC (z : Zone)
  | getRecordC (zoneName recName : String)
  | createZoneC (dnsName : Option String) (extra : ZoneExtra)
  | createRecordC (record : String) (z : Zone) (rtype : String) (data : RecSubmit)
  | deleteZoneC (z : Zone)
  | deleteRecordC (r : DnsRecord)

/-- The libcloud DNS Resource Client, abstracted: every operation takes
and returns the provider state `σ` and either returns a value or raises
a `DnsErr`. -/
structure DnsClient (σ : Type) where
  get_zone : σ → String → Except DnsErr Zone × σ
  iterate_zones : σ → Except DnsErr (List Zone) × σ
  iterate_records : σ → Zone → Except DnsErr (List DnsRecord) × σ
  get_record : σ → String → String → Except DnsErr DnsRecord × σ
  create_zone : σ → Option String → ZoneExtra → Except DnsErr Zone × σ
  create_record : σ → String → Zone → String → RecSubmit → Except DnsErr DnsRecord × σ
  delete_zone : σ → Zone → Except DnsErr Bool × σ
  delete_record : σ → DnsRecord → Except DnsErr Bool × σ

/-- Result of one full gc_dns invocation: the outcome, the final provider
state, the Resource Client calls performed in order, and whether a
create/delete provider call was accepted (actually mutated remote
state). -/
structure DnsRunOut (σ : Type) where
  outcome : DnsOutcome
  state : σ
  calls : List DnsCall
  mutated : Bool

/-- The parameters of one gc_dns invocation (all optional strings, as
declared in the argument spec; `command` defaults to `"get"`). -/
structure DnsParams where
  command : String
  description : Option String
  dns_name : Option String
  name : Option String
  record : Option String
  ttl : Option String
  record_type : Option String
  value : Option String

/-- The `unexpected_error_msg` helper from `ansible.module_utils.gce`
(external to this repository): a human-readable rendering of an
unexpected provider exception. -/
def unexpected_error_msg (e : DnsErr) : String :=
  match e with
  | .zoneNotFound => "Unexpected response: ZoneDoesNotExistError"
  | .recordNotFound => "Unexpected response: RecordDoesNotExistError"
  | .http code => "Unexpected response: http error " ++ Nat.repr code

/-- Effective record type: `if not record_type: record_type = "A"`. -/
def dnsEffType (p : DnsParams) : String :=
  if isTruthy p.record_type then pyStr p.record_type else "A"

/-- Effective ttl: `if not ttl: ttl = 86400`. -/
def dnsEffTtl (p : DnsParams) : TtlV :=
  if isTruthy p.ttl then .fromParam (pyStr p.ttl) else .defaulted 86400

/-- Effective rrdatas: `value.split(',')`, or `[]` when `value` is
falsy. -/
def dnsEffValue (p : DnsParams) : List String :=
  if isTruthy p.value then pySplitComma (pyStr p.value) else []

/-- The `data` dict built for `create_record`. -/
def dnsEffData (p : DnsParams) : RecSubmit :=
  { ttl := dnsEffTtl p, rrdatas := dnsEffValue p }

/-- The `extra` dict built for `create_zone`, with the defaulted
description `"Managed zone: %s" % dns_name`. -/
def dnsZoneExtra (p : DnsParams) : ZoneExtra :=
  { name := pyStr p.name
    description :=
      if isTruthy p.description then pyStr p.description
      else "Managed zone: " ++ pyStr p.dns_name }

/-- Intermediate result of one command branch, before the final
`output['command'] = command; output.setdefault('changed', False)`. -/
inductive BranchOut where
  | ok (payload : DnsPayload) (changed : Option Bool)
  | fail (msg : String) (changed : Option Bool)
  | crash

/-- A command branch result together with state, calls and mutation
flag. -/
structure BranchRes (σ : Type) where
  res : BranchOut
  state : σ
  calls : List DnsCall
  mutated : Bool

/-- Lines 339-343 of gc_dns.py: on the success path the module appends
`command`, defaults `changed` to `False` and exits 0; `fail_json` and
uncaught exceptions pass through. -/
def finishDns {σ : Type} (command : String) (b : BranchRes σ) : DnsRunOut σ :=
  { outcome :=
      match b.res with
      | .ok p ch => .exitOk { payload := p, changed := ch.getD false, command := command }
      | .fail m ch => .failJson m ch
      | .crash => .crashed
    state := b.state
    calls := b.calls
    mutated := b.mutated }

/-- The `try` block of the `list` command (lines 220-231). -/
def dnsListTry {σ : Type} (c : DnsClient σ) (p : DnsParams) (s : σ) :
    Except DnsErr DnsPayload × σ × List DnsCall :=
  if isTruthy p.name then
    match c.get_zone s (pyStr p.name) with
    | (.ok z, s1) =>
      match c.iterate_records s1 z with
      | (.ok rs, s2) => (.ok (.recordsD rs), s2, [.getZoneC (pyStr p.name), .iterRecordsC z])
      | (.error e, s2) => (.error e, s2, [.getZoneC (pyStr p.name), .iterRecordsC z])
    | (.error e, s1) => (.error e, s1, [.getZoneC (pyStr p.name)])
  else
    match c.iterate_zones s with
    | (.ok zs, s1) => (.ok (.zonesD zs), s1, [.iterZonesC])
    | (.error e, s1) => (.error e, s1, [.iterZonesC])

/-- The `list` command (lines 219-236): `ZoneDoesNotExistError` is fatal
with a zone-not-found message, any other exception is fatal with the
unexpected-error message. -/
def dnsList {σ : Type} (c : DnsClient σ) (p : DnsParams) (s : σ) : BranchRes σ :=
  match dnsListTry c p s with
  | (.ok pl, s1, cs) => { res := .ok pl none, state := s1, calls := cs, mutated := false }
  | (.error .zoneNotFound, s1, cs) =>
      { res := .fail ("Zone \x27" ++ pyStr p.name ++ "\x27 not found") (some false)
        state := s1, calls := cs, mutated := false }
  | (.error e, s1, cs) =>
      { res := .fail (unexpected_error_msg e) (some false)
        state := s1, calls := cs, mutated := false }

/-- The `get` command (lines 238-258). -/
def dnsGet {σ : Type} (c : DnsClient σ) (p : DnsParams) (s : σ) : BranchRes σ :=
  if !(isTruthy p.name) then
    { res := .fail "Missing required \x27name\x27" (some false)
      state := s, calls := [], mutated := false }
  else if isTruthy p.record then
    match c.get_record s (pyStr p.name) (dnsEffType p ++ ":" ++ pyStr p.record) with
    | (.ok r, s1) =>
        { res := .ok (.recordD r) none, state := s1
          calls := [.getRecordC (pyStr p.name) (dnsEffType p ++ ":" ++ pyStr p.record)]
          mutated := false }
    | (.error .recordNotFound, s1) =>
        { res := .fail ("Record \x27" ++ pyStr p.record ++ "\x27 of type \x27" ++ dnsEffType p
              ++ "\x27 not found in zone \x27" ++ pyStr p.name ++ "\x27") (some false)
          state := s1
          calls := [.getRecordC (pyStr p.name) (dnsEffType p ++ ":" ++ pyStr p.record)]
          mutated := false }
    | (.error e, s1) =>
        { res := .fail (unexpected_error_msg e) (some false), state := s1
          calls := [.getRecordC (pyStr p.name) (dnsEffType p ++ ":" ++ pyStr p.record)]
          mutated := false }
  else
    match c.get_zone s (pyStr p.name) with
    | (.ok z, s1) =>
        { res := .ok (.zoneD z) none, state := s1
          calls := [.getZoneC (pyStr p.name)], mutated := false }
    | (.error .zoneNotFound, s1) =>
        { res := .fail ("Zone \x27" ++ pyStr p.name ++ "\x27 not found") (some false)
          state := s1, calls := [.getZoneC (pyStr p.name)], mutated := false }
    | (.error e, s1) =>
        { res := .fail (unexpected_error_msg e) (some false), state := s1
          calls := [.getZoneC (pyStr p.name)], mutated := false }

/-- The `try` block of the record-create path (lines 274-276): fetch the
zone, then submit the record. -/
def dnsCreateRecordTry {σ : Type} (c : DnsClient σ) (p : DnsParams) (s : σ) :
    Except DnsErr DnsRecord × σ × List DnsCall :=
  match c.get_zone s (pyStr p.name) with
  | (.ok z, s1) =>
      match c.create_record s1 (pyStr p.record) z (dnsEffType p) (dnsEffData p) with
      | (.ok r, s2) =>
          (.ok r, s2, [.getZoneC (pyStr p.name),
            .createRecordC (pyStr p.record) z (dnsEffType p) (dnsEffData p)])
      | (.error e, s2) =>
          (.error e, s2, [.getZoneC (pyStr p.name),
            .createRecordC (pyStr p.record) z (dnsEffType p) (dnsEffData p)])
  | (.error e, s1) => (.error e, s1, [.getZoneC (pyStr p.name)])

/-- The record branch of the `create` command (lines 263-286):
`ZoneDoesNotExistError` is fatal with a zone-not-found message; any
other exception is inspected through `e.http_code` — 409 re-fetches the
existing record (`changed` stays unset), anything else is fatal; a typed
record-not-found error has no `http_code`, so the handler itself crashes,
as does a failure of the re-fetch inside the handler. -/
def dnsCreateRecord {σ : Type} (c : DnsClient σ) (p : DnsParams) (s : σ) : BranchRes σ :=
  match dnsCreateRecordTry c p s with
  | (.ok r, s1, cs) =>
      { res := .ok (.recordD r) (some true), state := s1, calls := cs, mutated := true }
  | (.error .zoneNotFound, s1, cs) =>
      { res := .fail ("Zone \x27" ++ pyStr p.name ++ "\x27 not found") (some false)
        state := s1, calls := cs, mutated := false }
  | (.error .recordNotFound, s1, cs) =>
      { res := .crash, state := s1, calls := cs, mutated := false }
  | (.error (.http code), s1, cs) =>
      if code == 409 then
        match c.get_record s1 (pyStr p.name) (dnsEffType p ++ ":" ++ pyStr p.record) with
        | (.ok r, s2) =>
            { res := .ok (.recordD r) none, state := s2
              calls := cs ++ [.getRecordC (pyStr p.name) (dnsEffType p ++ ":" ++ pyStr p.record)]
              mutated := false }
        | (.error _, s2) =>
            { res := .crash, state := s2
              calls := cs ++ [.getRecordC (pyStr p.name) (dnsEffType p ++ ":" ++ pyStr p.record)]
              mutated := false }
      else
        { res := .fail (unexpected_error_msg (.http code)) (some false)
          state := s1, calls := cs, mutated := false }

/-- The zone branch of the `create` command (lines 287-301): submit the
zone; on an exception with `http_code == 409` fetch the existing zone
twice (the source calls `get_zone` once into an unused variable and once
for the output) with `changed` left unset; other `http_code`s are fatal;
a typed error without `http_code`, or a failing re-fetch inside the
handler, crashes. -/
def dnsCreateZone {σ : Type} (c : DnsClient σ) (p : DnsParams) (s : σ) : BranchRes σ :=
  match c.create_zone s p.dns_name (dnsZoneExtra p) with
  | (.ok z, s1) =>
      { res := .ok (.zoneD z) (some true), state := s1
        calls := [.createZoneC p.dns_name (dnsZoneExtra p)], mutated := true }
  | (.error (.http code), s1) =>
      if code == 409 then
        match c.get_zone s1 (pyStr p.name) with
        | (.ok _, s2) =>
            match c.get_zone s2 (pyStr p.name) with
            | (.ok z2, s3) =>
                { res := .ok (.zoneD z2) none, state := s3
                  calls := [.createZoneC p.dns_name (dnsZoneExtra p),
                    .getZoneC (pyStr p.name), .getZoneC (pyStr p.name)]
                  mutated := false }
            | (.error _, s3) =>
                { res := .crash, state := s3
                  calls := [.createZoneC p.dns_name (dnsZoneExtra p),
                    .getZoneC (pyStr p.name), .getZoneC (pyStr p.name)]
                  mutated := false }
        | (.error _, s2) =>
            { res := .crash, state := s2
              calls := [.createZoneC p.dns_name (dnsZoneExtra p), .getZoneC (pyStr p.name)]
              mutated := false }
      else
        { res := .fail (unexpected_error_msg (.http code)) (some false)
          state := s1, calls := [.createZoneC p.dns_name (dnsZoneExtra p)], mutated := false }
  | (.error _, s1) =>
      { res := .crash, state := s1
        calls := [.createZoneC p.dns_name (dnsZoneExtra p)], mutated := false }

/-- How the `try` block of the `delete` command ends: normally, by an
in-block `fail_json` (delete call returned a falsy result), or by an
exception (recording the output built so far, which the idempotency
handlers extend). -/
inductive DelTryRes where
  | okOut (payload : DnsPayload) (changed : Option Bool)
  | failedNow (msg : String)
  | raisedE (e : DnsErr) (outSoFar : DnsPayload)

/-- The `try` block of the `delete` command (lines 306-320). -/
def dnsDeleteTry {σ : Type} (c : DnsClient σ) (p : DnsParams) (s : σ) :
    DelTryRes × σ × List DnsCall × Bool :=
  if isTruthy p.record then
    match c.get_record s (pyStr p.name) (dnsEffType p ++ ":" ++ pyStr p.record) with
    | (.ok r, s1) =>
        match c.delete_record s1 r with
        | (.ok b, s2) =>
            if b then
              (.okOut (.recordD r) (some true), s2,
                [.getRecordC (pyStr p.name) (dnsEffType p ++ ":" ++ pyStr p.record),
                 .deleteRecordC r], true)
            else
              (.failedNow ("Failed to delete record " ++ pyStr p.record), s2,
                [.getRecordC (pyStr p.name) (dnsEffType p ++ ":" ++ pyStr p.record),
                 .deleteRecordC r], false)
        | (.error e, s2) =>
            (.raisedE e (.recordD r), s2,
              [.getRecordC (pyStr p.name) (dnsEffType p ++ ":" ++ pyStr p.record),
               .deleteRecordC r], false)
    | (.error e, s1) =>
        (.raisedE e .emptyP, s1,
          [.getRecordC (pyStr p.name) (dnsEffType p ++ ":" ++ pyStr p.record)], false)
  else
    match c.get_zone s (pyStr p.name) with
    | (.ok z, s1) =>
        match c.delete_zone s1 z with
        | (.ok b, s2) =>
            if b then
              (.okOut (.zoneD z) (some true), s2,
                [.getZoneC (pyStr p.name), .deleteZoneC z], true)
            else
              (.failedNow ("Failed to delete zone " ++ pyStr p.name), s2,
                [.getZoneC (pyStr p.name), .deleteZoneC z], false)
        | (.error e, s2) =>
            (.raisedE e (.zoneD z), s2, [.getZoneC (pyStr p.name), .deleteZoneC z], false)
    | (.error e, s1) =>
        (.raisedE e .emptyP, s1, [.getZoneC (pyStr p.name)], false)

/-- The `delete` command (lines 303-333): a typed record-not-found or
zone-not-found error is tolerated (idempotent absence) and merely adds
identifying keys to the output; a generic exception with
`http_code == 404` is passed over silently; any other exception is
fatal.  At the point of the record-not-found handler, `record_type` has
already been defaulted iff the record path was taken. -/
def dnsDelete {σ : Type} (c : DnsClient σ) (p : DnsParams) (s : σ) : BranchRes σ :=
  if !(isTruthy p.name) then
    { res := .fail "Missing required \x27name\x27" (some false)
      state := s, calls := [], mutated := false }
  else
    match dnsDeleteTry c p s with
    | (.okOut pl ch, s1, cs, mu) =>
        { res := .ok pl ch, state := s1, calls := cs, mutated := mu }
    | (.failedNow m, s1, cs, mu) =>
        { res := .fail m (some false), state := s1, calls := cs, mutated := mu }
    | (.raisedE .recordNotFound out, s1, cs, mu) =>
        { res := .ok (.addRecordKeys out p.record
              (if isTruthy p.record then some (dnsEffType p) else p.record_type)
              p.name) none
          state := s1, calls := cs, mutated := mu }
    | (.raisedE .zoneNotFound out, s1, cs, mu) =>
        { res := .ok (.addNameKey out p.name) none
          state := s1, calls := cs, mutated := mu }
    | (.raisedE (.http code) out, s1, cs, mu) =>
        if code == 404 then
          { res := .ok out none, state := s1, calls := cs, mutated := mu }
        else
          { res := .fail (unexpected_error_msg (.http code)) (some false)
            state := s1, calls := cs, mutated := mu }

/-- The `create` command (lines 260-301): required-name check, then
the record or zone path. -/
def dnsCreate {σ : Type} (c : DnsClient σ) (p : DnsParams) (s : σ) : BranchRes σ :=
  if !(isTruthy p.name) then
    { res := .fail "Missing required \x27name\x27" (some false)
      state := s, calls := [], mutated := false }
  else if isTruthy p.record then dnsCreateRecord c p s
  else dnsCreateZone c p s

/-- Validation of lines 213-217: both trailing-dot checks pass. -/
def dnsParamsValid (p : DnsParams) : Bool :=
  !(isTruthy p.record && !(lastCharIsDot (pyStr p.record))) &&
  !(isTruthy p.dns_name && !(lastCharIsDot (pyStr p.dns_name)))

/-- The `main` function of gc_dns.py: trailing-dot validation first
(lines 213-217), then dispatch on `command`, then the output
finalization of lines 339-343. -/
def gcDnsRun {σ : Type} (c : DnsClient σ) (p : DnsParams) (s : σ) : DnsRunOut σ :=
  if isTruthy p.record && !(lastCharIsDot (pyStr p.record)) then
    { outcome := .failJson "Must specify a valid DNS record name" (some false)
      state := s, calls := [], mutated := false }
  else if isTruthy p.dns_name && !(lastCharIsDot (pyStr p.dns_name)) then
    { outcome := .failJson "Must specify a valid dns_name" (some false)
      state := s, calls := [], mutated := false }
  else if p.command == "list" then finishDns p.command (dnsList c p s)
  else if p.command == "get" then finishDns p.command (dnsGet c p s)
  else if p.command == "create" then finishDns p.command (dnsCreate c p s)
  else if p.command == "delete" then finishDns p.command (dnsDelete c p s)
  else
    { outcome := .failJson ("Unknown command \x27" ++ p.command
        ++ "\x27, must be \x27list\x27, \x27get\x27, \x27create\x27, or \x27delete\x27.") (some false)
      state := s, calls := [], mutated := false }

/-! ## The GKE module `clustering/gke.py` -/

/-- An `HttpError` from the Google API client, as the module sees it
(`e.resp.status`). -/
structure HttpE where
  status : Nat

/-- A cluster response dictionary.  The module reads `status` and
`statusMessage`; every other key is kept abstract.  A key absent from the
provider dictionary is modelled as the empty string. -/
structure GkeResp where
  status : String
  statusMessage : String
  extraFields : List (String × String)

/-- The `nodeConfig` sub-dictionary of `_make_cluster_body`. -/
structure GkeNodeConfig where
  machineType : String
  diskSizeGb : Nat
  oauthScopes : List String
  metadata : Option (List (String × String))

/-- The `masterAuth` sub-dictionary of `_make_cluster_body`. -/
structure GkeMasterAuth where
  username : String
  password : String

/-- The cluster dictionary built by `_make_cluster_body`; optional keys
are present exactly when the corresponding parameter is truthy. -/
structure GkeClusterSpec where
  name : String
  description : Option String
  initialNodeCount : Nat
  nodeConfig : GkeNodeConfig
  masterAuth : GkeMasterAuth
  loggingService : Option String
  monitoringService : Option String
  network : Option String
  clusterIpv4Cidr : Option String
  zone : Option String

/-- The request body `{'cluster': cluster}` submitted to `create`. -/
structure GkeCreateBody where
  cluster : GkeClusterSpec

/-- The parameters of one gke invocation, after the argument-spec
defaults have been applied. -/
structure GkeParams where
  project_id : String
  name : String
  description : String
  node_count : Nat
  node_config_machine_type : String
  node_config_disksize : Nat
  node_config_scopes : List String
  node_config_metadata : Option (List (String × String))
  username : String
  password : String
  logging_service : String
  monitoring_svc : String
  network_name : String
  ipv4_range : Option String
  wait_for : Bool
  wait_poll_interval : Nat
  zone : String
  state : String

/-- `_make_cluster_body` (lines 212-241): optional keys are set only
when the parameter is truthy. -/
def make_cluster_body (p : GkeParams) : GkeCreateBody :=
  { cluster :=
    { name := p.name
      description := if p.description == "" then none else some p.description
      initialNodeCount := p.node_count
      nodeConfig :=
        { machineType := p.node_config_machine_type
          diskSizeGb := p.node_config_disksize
          oauthScopes := p.node_config_scopes
          metadata :=
            match p.node_config_metadata with
            | some m => if m.isEmpty then none else some m
            | none => none }
      masterAuth := { username := p.username, password := p.password }
      loggingService := if p.logging_service == "" then none else some p.logging_service
      monitoringService := if p.monitoring_svc == "" then none else some p.monitoring_svc
      network := if p.network_name == "" then none else some p.network_name
      clusterIpv4Cidr :=
        match p.ipv4_range with
        | some r => if r == "" then none else some r
        | none => none
      zone := if p.zone == "" then none else some p.zone } }

/-- The GKE Resource Client
(`gke.projects().zones().clusters()`), abstracted: each operation takes
the provider state and the `projectId`/`zone` (and `clusterId` for
get/delete) arguments the module passes, and either returns a response
dictionary or raises an `HttpError`. -/
structure GkeClient (σ : Type) where
  create : σ → String → String → GkeCreateBody → Except HttpE GkeResp × σ
  get : σ → String → String → String → Except HttpE GkeResp × σ
  delete : σ → String → String → String → Except HttpE GkeResp × σ

/-- How a gke invocation terminates: `exitOk` models
`module.exit_json(changed=changed, **resp)`, `failJsonG` models
`module.fail_json(msg=...)` (note: no `changed` argument is passed), and
`raised` models `raise e` escaping `main` uncaught. -/
inductive GkeOutcome where
  | exitOk (changed : Bool) (resp : GkeResp)
  | failJsonG (msg : String)
  | raised (e : HttpE)

/-- Result of one gke invocation: outcome, final provider state, number
of sleep-then-fetch polling cycles performed, and whether a mutating
provider call (create/delete) was accepted. -/
structure GkeRunOut (σ : Type) where
  outcome : GkeOutcome
  state : σ
  cycles : Nat
  mutated : Bool

/-- How the create-side polling loop (lines 322-330) ends. -/
inductive PollCreateRes where
  | done (r : GkeResp)
  | failedP (msg : String)
  | raisedP (e : HttpE)

/-- The create-side polling loop (lines 322-330), with fuel: each
iteration sleeps, re-fetches the cluster, stops successfully on status
`RUNNING`, fails fatally on `ERROR`/`STATUS_UNSPECIFIED` with the
provider status message, and lets a fetch exception propagate.  Returns
the loop result, the final state, and the number of sleep-then-fetch
cycles performed; `none` when the fuel ran out (the source loop is
unbounded). -/
def gkePollCreate {σ : Type} (c : GkeClient σ) (project zone name : String) :
    Nat → σ → Option (PollCreateRes × σ × Nat)
  | 0, _ => none
  | fuel + 1, s =>
    match c.get s project zone name with
    | (.error e, s1) => some (.raisedP e, s1, 1)
    | (.ok r, s1) =>
      if r.status == "RUNNING" then some (.done r, s1, 1)
      else if r.status == "ERROR" || r.status == "STATUS_UNSPECIFIED" then
        some (.failedP ("Error [" ++ r.status ++ "]: \x27" ++ r.statusMessage ++ "\x27"), s1, 1)
      else
        match gkePollCreate c project zone name fuel s1 with
        | none => none
        | some (res, s2, n) => some (res, s2, n + 1)

/-- How the delete-side polling loop (lines 345-354) ends. -/
inductive PollDeleteRes where
  | goneP
  | raisedDP (e : HttpE)

/-- The delete-side polling loop (lines 345-354), with fuel: each
iteration sleeps and re-fetches; a successful fetch continues the loop,
a 404 ends it successfully, any other `HttpError` is re-raised. -/
def gkePollDelete {σ : Type} (c : GkeClient σ) (project zone name : String) :
    Nat → σ → Option (PollDeleteRes × σ × Nat)
  | 0, _ => none
  | fuel + 1, s =>
    match c.get s project zone name with
    | (.error e, s1) =>
        if e.status == 404 then some (.goneP, s1, 1)
        else some (.raisedDP e, s1, 1)
    | (.ok _, s1) =>
        match gkePollDelete c project zone name fuel s1 with
        | none => none
        | some (res, s2, n) => some (res, s2, n + 1)

/-- Continuation after the create/409 handling (line 322 onwards): run
the polling loop if `polling` is still set, then
`module.exit_json(changed=changed, **resp)`. -/
def gkeAfterCreate {σ : Type} (c : GkeClient σ) (p : GkeParams) (fuel : Nat) (s : σ)
    (resp : GkeResp) (changed polling mu : Bool) : Option (GkeRunOut σ) :=
  if polling then
    match gkePollCreate c p.project_id p.zone p.name fuel s with
    | none => none
    | some (.done r, s1, n) =>
        some { outcome := .exitOk changed r, state := s1, cycles := n, mutated := mu }
    | some (.failedP m, s1, n) =>
        some { outcome := .failJsonG m, state := s1, cycles := n, mutated := mu }
    | some (.raisedP e, s1, n) =>
        some { outcome := .raised e, state := s1, cycles := n, mutated := mu }
  else some { outcome := .exitOk changed resp, state := s, cycles := 0, mutated := mu }

/-- The `except HttpError` handler of the create path (lines 314-320):
on 409 fetch the existing cluster and stop polling (`changed` remains
`False`); any other code is re-raised.  A failure of the fetch inside
the handler propagates.  `mu` records whether the `create` call itself
had been accepted before the exception. -/
def gkeCreateHandler {σ : Type} (c : GkeClient σ) (p : GkeParams) (fuel : Nat) (s : σ)
    (e : HttpE) (mu : Bool) : Option (GkeRunOut σ) :=
  if e.status == 409 then
    match c.get s p.project_id p.zone p.name with
    | (.ok resp, s1) => gkeAfterCreate c p fuel s1 resp false false mu
    | (.error e2, s1) =>
        some { outcome := .raised e2, state := s1, cycles := 0, mutated := mu }
  else some { outcome := .raised e, state := s, cycles := 0, mutated := mu }

/-- The `state == "present"` path (lines 306-332): create, re-fetch,
set `changed = True`; exceptions from either call go to the 409
handler. -/
def gkePresent {σ : Type} (c : GkeClient σ) (p : GkeParams) (fuel : Nat) (s : σ) :
    Option (GkeRunOut σ) :=
  match c.create s p.project_id p.zone (make_cluster_body p) with
  | (.ok _, s1) =>
    match c.get s1 p.project_id p.zone p.name with
    | (.ok resp, s2) => gkeAfterCreate c p fuel s2 resp true p.wait_for true
    | (.error e, s2) => gkeCreateHandler c p fuel s2 e true
  | (.error e, s1) => gkeCreateHandler c p fuel s1 e false

/-- The literal response dictionary of line 356
(`{"name": name, "zone": zone, "status": "FOT FOUND"}`, typo included;
it has no `statusMessage` key, modelled as `""`). -/
def gkeFinalDeleteResp (p : GkeParams) : GkeResp :=
  { status := "FOT FOUND", statusMessage := ""
    extraFields := [("name", p.name), ("zone", p.zone)] }

/-- Continuation after the delete call (lines 345-357): run the
delete-side polling loop if `polling` is still set, then exit with the
literal not-found response. -/
def gkeAfterDelete {σ : Type} (c : GkeClient σ) (p : GkeParams) (fuel : Nat) (s : σ)
    (changed polling mu : Bool) : Option (GkeRunOut σ) :=
  if polling then
    match gkePollDelete c p.project_id p.zone p.name fuel s with
    | none => none
    | some (.goneP, s1, n) =>
        some { outcome := .exitOk changed (gkeFinalDeleteResp p), state := s1
               cycles := n, mutated := mu }
    | some (.raisedDP e, s1, n) =>
        some { outcome := .raised e, state := s1, cycles := n, mutated := mu }
  else
    some { outcome := .exitOk changed (gkeFinalDeleteResp p), state := s
           cycles := 0, mutated := mu }

/-- The `state == "absent"` path (lines 334-357): delete, set
`changed = True`; a 404 stops polling with `changed` still `False`, any
other `HttpError` is re-raised. -/
def gkeAbsent {σ : Type} (c : GkeClient σ) (p : GkeParams) (fuel : Nat) (s : σ) :
    Option (GkeRunOut σ) :=
  match c.delete s p.project_id p.zone p.name with
  | (.ok _, s1) => gkeAfterDelete c p fuel s1 true p.wait_for true
  | (.error e, s1) =>
      if e.status == 404 then gkeAfterDelete c p fuel s1 false false false
      else some { outcome := .raised e, state := s1, cycles := 0, mutated := false }

/-- The `main` function of gke.py (dispatch on `state`, lines 306-359). -/
def gkeRun {σ : Type} (c : GkeClient σ) (p : GkeParams) (fuel : Nat) (s : σ) :
    Option (GkeRunOut σ) :=
  if p.state == "present" then gkePresent c p fuel s
  else if p.state == "absent" then gkeAbsent c p fuel s
  else
    some { outcome := .failJsonG ("Invalid state: \x27" ++ p.state ++ "\x27")
           state := s, cycles := 0, mutated := false }

/-! ## Simulated Resource Clients

Concrete clients used to exercise the runs on explicit inputs: an
in-memory DNS world, an in-memory single-cluster GKE world, and a
scripted GKE client that replays a fixed list of responses. -/

/-- An in-memory DNS provider state: zones with their records. -/
structure DnsWorld where
  zones : List (Zone × List DnsRecord)

/-- Look up a zone (with its records) by zone id. -/
def worldFindZone (w : DnsWorld) (n : String) : Option (Zone × List DnsRecord) :=
  w.zones.find? (fun zr => zr.1.id == n)

/-- An in-memory DNS Resource Client: fetches report the typed
not-found errors, creating an existing resource raises HTTP 409, and
deletes succeed (returning `True`) and remove the resource. -/
def memDnsClient : DnsClient DnsWorld where
  get_zone s n :=
    match worldFindZone s n with
    | some (z, _) => (.ok z, s)
    | none => (.error .zoneNotFound, s)
  iterate_zones s := (.ok (s.zones.map Prod.fst), s)
  iterate_records s z :=
    match worldFindZone s z.id with
    | some (_, rs) => (.ok rs, s)
    | none => (.error .zoneNotFound, s)
  get_record s zn rn :=
    match worldFindZone s zn with
    | some (_, rs) =>
      match rs.find? (fun r => r.id == rn) with
      | some r => (.ok r, s)
      | none => (.error .recordNotFound, s)
    | none => (.error .zoneNotFound, s)
  create_zone s dn extra :=
    match worldFindZone s extra.name with
    | some _ => (.error (.http 409), s)
    | none =>
        (.ok { id := extra.name, domain := pyStr dn },
         { zones := s.zones ++ [({ id := extra.name, domain := pyStr dn }, [])] })
  create_record s recName z rt _data :=
    match worldFindZone s z.id with
    | none => (.error .zoneNotFound, s)
    | some (_, rs) =>
        match rs.find? (fun r => r.id == rt ++ ":" ++ recName) with
        | some _ => (.error (.http 409), s)
        | none =>
            (.ok { id := rt ++ ":" ++ recName, zoneId := z.id },
             { zones := s.zones.map (fun zr =>
                 if zr.1.id == z.id then
                   (zr.1, zr.2 ++ [{ id := rt ++ ":" ++ recName, zoneId := z.id }])
                 else zr) })
  delete_zone s z :=
    if (worldFindZone s z.id).isSome then
      (.ok true, { zones := s.zones.filter (fun zr => !(zr.1.id == z.id)) })
    else (.error .zoneNotFound, s)
  delete_record s r :=
    match worldFindZone s r.zoneId with
    | none => (.error .zoneNotFound, s)
    | some (_, rs) =>
        if (rs.find? (fun rr => rr.id == r.id)).isSome then
          (.ok true, { zones := s.zones.map (fun zr =>
              if zr.1.id == r.zoneId then
                (zr.1, zr.2.filter (fun rr => !(rr.id == r.id)))
              else zr) })
        else (.error .recordNotFound, s)

/-- A DNS client whose record delete returns the failure signal `False`
without raising (for the `DeleteFailed` paths). -/
def falsyDnsClient (r0 : DnsRecord) (z0 : Zone) : DnsClient Unit where
  get_zone s _ := (.ok z0, s)
  iterate_zones s := (.ok [z0], s)
  iterate_records s _ := (.ok [r0], s)
  get_record s _ _ := (.ok r0, s)
  create_zone s _ _ := (.ok z0, s)
  create_record s _ _ _ _ := (.ok r0, s)
  delete_zone s _ := (.ok false, s)
  delete_record s _ := (.ok false, s)

/-- Scripted GKE provider state: fixed create/delete responses, and a
list of successive `get` responses consumed one per fetch. -/
structure GkeTrace where
  createR : Except HttpE GkeResp
  deleteR : Except HttpE GkeResp
  gets : List (Except HttpE GkeResp)

/-- The scripted GKE Resource Client: replays `gets` in order
(an exhausted script answers HTTP 599). -/
def traceGkeClient : GkeClient GkeTrace where
  create s _ _ _ := (s.createR, s)
  delete s _ _ _ := (s.deleteR, s)
  get s _ _ _ :=
    match s.gets with
    | [] => (.error { status := 599 }, s)
    | g :: rest => (g, { s with gets := rest })

/-- An in-memory GKE provider state: the cluster response if the
cluster exists, `none` otherwise. -/
def memGkeClient : GkeClient (Option GkeResp) where
  create s _ _ _ :=
    match s with
    | some _ => (.error { status := 409 }, s)
    | none =>
        (.ok { status := "RUNNING", statusMessage := "", extraFields := [] },
         some { status := "RUNNING", statusMessage := "", extraFields := [] })
  get s _ _ _ :=
    match s with
    | some r => (.ok r, s)
    | none => (.error { status := 404 }, s)
  delete s _ _ _ :=
    match s with
    | some r => (.ok r, none)
    | none => (.error { status := 404 }, s)

/-! ## Concrete inputs used by witnesses and counterexamples -/

/-- A DNS parameter set with everything unset but the command. -/
def dnsP0 (cmd : String) : DnsParams :=
  { command := cmd, description := none, dns_name := none, name := none
    record := none, ttl := none, record_type := none, value := none }

/-- The running zone used by the concrete DNS worlds. -/
def zOne : Zone := { id := "z1", domain := "example.com." }

/-- A record of `zOne` under its libcloud id `A:foo.example.com.`. -/
def recFoo : DnsRecord := { id := "A:foo.example.com.", zoneId := "z1" }

/-- World with the zone `z1` and no records. -/
def wZoneOnly : DnsWorld := { zones := [(zOne, [])] }

/-- World with the zone `z1` holding the record `recFoo`. -/
def wZoneRec : DnsWorld := { zones := [(zOne, [recFoo])] }

/-- GKE parameters creating cluster `c1` with `wait_for=true`. -/
def gkeP : GkeParams :=
  { project_id := "proj", name := "c1", description := "d", node_count := 2
    node_config_machine_type := "n1-standard-1", node_config_disksize := 100
    node_config_scopes := ["https://www.googleapis.com/auth/compute"]
    node_config_metadata := none, username := "admin", password := "pw"
    logging_service := "logging.googleapis.com"
    monitoring_svc := "monitoring.googleapis.com"
    network_name := "default", ipv4_range := none, wait_for := true
    wait_poll_interval := 10, zone := "us-central1-f", state := "present" }

/-- The same parameters with `state=absent`. -/
def gkePDel : GkeParams := { gkeP with state := "absent" }

/-- A non-terminal status response. -/
def respPending : GkeResp :=
  { status := "PROVISIONING", statusMessage := "", extraFields := [] }

/-- A terminal success response. -/
def respRunning : GkeResp :=
  { status := "RUNNING", statusMessage := "", extraFields := [] }

/-- A terminal error response with a provider message. -/
def respError : GkeResp :=
  { status := "ERROR", statusMessage := "boom", extraFields := [] }

/-! ## Helper lemmas -/

lemma len_append_pos (s t : String) (h : 0 < s.length) : 0 < (s ++ t).length := by
  rw [String.length_append]; omega

lemma unexpected_error_msg_pos (e : DnsErr) : 0 < (unexpected_error_msg e).length := by
  cases e with
  | zoneNotFound => decide
  | recordNotFound => decide
  | http code => exact len_append_pos _ _ (by decide)

lemma dnsParamsValid_split (p : DnsParams) (hv : dnsParamsValid p = true) :
    (isTruthy p.record && !(lastCharIsDot (pyStr p.record))) = false ∧
    (isTruthy p.dns_name && !(lastCharIsDot (pyStr p.dns_name))) = false := by
  unfold dnsParamsValid at hv
  constructor
  · cases h : (isTruthy p.record && !(lastCharIsDot (pyStr p.record))) with
    | false => rfl
    | true => rw [h] at hv; simp at hv
  · cases h : (isTruthy p.dns_name && !(lastCharIsDot (pyStr p.dns_name))) with
    | false => rfl
    | true => rw [h] at hv; simp at hv

lemma gcDnsRun_list_eq {σ : Type} (c : DnsClient σ) (p : DnsParams) (s : σ)
    (hv : dnsParamsValid p = true) (hcmd : p.command = "list") :
    gcDnsRun c p s = finishDns p.command (dnsList c p s) := by
  obtain ⟨hv1, hv2⟩ := dnsParamsValid_split p hv
  unfold gcDnsRun
  simp [hv1, hv2, hcmd]

lemma gcDnsRun_get_eq {σ : Type} (c : DnsClient σ) (p : DnsParams) (s : σ)
    (hv : dnsParamsValid p = true) (hcmd : p.command = "get") :
    gcDnsRun c p s = finishDns p.command (dnsGet c p s) := by
  obtain ⟨hv1, hv2⟩ := dnsParamsValid_split p hv
  unfold gcDnsRun
  simp [hv1, hv2, hcmd]

lemma gcDnsRun_createRec_eq {σ : Type} (c : DnsClient σ) (p : DnsParams) (s : σ)
    (hv : dnsParamsValid p = true) (hcmd : p.command = "create")
    (hname : isTruthy p.name = true) (hrec : isTruthy p.record = true) :
    gcDnsRun c p s = finishDns p.command (dnsCreateRecord c p s) := by
  obtain ⟨hv1, hv2⟩ := dnsParamsValid_split p hv
  have hd : lastCharIsDot (pyStr p.record) = true := by
    rw [hrec] at hv1; simpa using hv1
  unfold gcDnsRun dnsCreate
  simp [hv1, hv2, hcmd, hname, hrec, hd]

lemma gcDnsRun_createZone_eq {σ : Type} (c : DnsClient σ) (p : DnsParams) (s : σ)
    (hv : dnsParamsValid p = true) (hcmd : p.command = "create")
    (hname : isTruthy p.name = true) (hrec : isTruthy p.record = false) :
    gcDnsRun c p s = finishDns p.command (dnsCreateZone c p s) := by
  obtain ⟨hv1, hv2⟩ := dnsParamsValid_split p hv
  unfold gcDnsRun dnsCreate
  simp [hv1, hv2, hcmd, hname, hrec]

lemma gcDnsRun_delete_eq {σ : Type} (c : DnsClient σ) (p : DnsParams) (s : σ)
    (hv : dnsParamsValid p = true) (hcmd : p.command = "delete") :
    gcDnsRun c p s = finishDns p.command (dnsDelete c p s) := by
  obtain ⟨hv1, hv2⟩ := dnsParamsValid_split p hv
  unfold gcDnsRun
  simp [hv1, hv2, hcmd]

/-! ## C4: trailing-dot validation happens before any client call -/

/-- C4: on any invocation whose `record` or `dns_name` parameter is
truthy and does not end in a dot, gc_dns fails with the corresponding
validation message and `changed=False`, with the provider state
untouched and zero Resource Client calls performed — for every value of
`command`, since the checks precede dispatch. -/
theorem dns_trailing_dot_validation (σ : Type) (c : DnsClient σ) (p : DnsParams) (s : σ)
    (h : (isTruthy p.record = true ∧ lastCharIsDot (pyStr p.record) = false) ∨
         (isTruthy p.dns_name = true ∧ lastCharIsDot (pyStr p.dns_name) = false)) :
    ∃ m, (m = "Must specify a valid DNS record name" ∨ m = "Must specify a valid dns_name") ∧
      gcDnsRun c p s =
        { outcome := .failJson m (some false), state := s, calls := [], mutated := false } := by
  by_cases hr : (isTruthy p.record && !(lastCharIsDot (pyStr p.record))) = true
  · refine ⟨_, Or.inl rfl, ?_⟩
    unfold gcDnsRun
    simp [hr]
  · rcases h with ⟨h1, h2⟩ | ⟨h1, h2⟩
    · exact absurd (by simp [h1, h2]) hr
    · refine ⟨_, Or.inr rfl, ?_⟩
      unfold gcDnsRun
      simp [hr, h1, h2]

/-- Witness for C4 at a concrete input: a `create` call with
`record="nodot"` fails validation without touching the client. -/
theorem dns_trailing_dot_validation_witness :
    ∃ m, (m = "Must specify a valid DNS record name" ∨ m = "Must specify a valid dns_name") ∧
      gcDnsRun memDnsClient { dnsP0 "create" with name := some "z1", record := some "nodot" }
          wZoneOnly =
        { outcome := .failJson m (some false), state := wZoneOnly, calls := [], mutated := false } :=
  dns_trailing_dot_validation _ memDnsClient _ _ (Or.inl ⟨rfl, rfl⟩)

/-! ## C7: defaults and rrdatas submitted on record create -/

lemma dnsCreateRecord_calls_prefix {σ : Type} (c : DnsClient σ) (p : DnsParams)
    (s s1 : σ) (z : Zone) (hz : c.get_zone s (pyStr p.name) = (.ok z, s1)) :
    ∃ rest, (dnsCreateRecord c p s).calls =
      .getZoneC (pyStr p.name) ::
      .createRecordC (pyStr p.record) z (dnsEffType p) (dnsEffData p) :: rest := by
  unfold dnsCreateRecord dnsCreateRecordTry
  rcases hcr : c.create_record s1 (pyStr p.record) z (dnsEffType p) (dnsEffData p) with ⟨res, s2⟩
  cases res with
  | ok r => exact ⟨[], by simp [hz, hcr]⟩
  | error e =>
    cases e with
    | zoneNotFound => exact ⟨[], by simp [hz, hcr]⟩
    | recordNotFound => exact ⟨[], by simp [hz, hcr]⟩
    | http code =>
      by_cases hc : (code == 409) = true
      · rcases hgr : c.get_record s2 (pyStr p.name) (dnsEffType p ++ ":" ++ pyStr p.record)
          with ⟨res2, s3⟩
        cases res2 with
        | ok r2 =>
            exact ⟨[.getRecordC (pyStr p.name) (dnsEffType p ++ ":" ++ pyStr p.record)],
              by simp [hz, hcr, hc, hgr]⟩
        | error e2 =>
            exact ⟨[.getRecordC (pyStr p.name) (dnsEffType p ++ ":" ++ pyStr p.record)],
              by simp [hz, hcr, hc, hgr]⟩
      · exact ⟨[], by simp [hz, hcr, hc]⟩

/-- C7: whenever the record-create path reaches the Resource Client
(the zone fetch succeeded), the submitted request uses exactly the
effective record type, ttl and rrdatas — record type `"A"` when the
parameter is unset, ttl the integer 86400 when unset, and rrdatas the
comma-split of `value` in original order (empty when `value` is
unset). -/
theorem dns_record_create_submits_defaults (σ : Type) (c : DnsClient σ) (p : DnsParams)
    (s s1 : σ) (z : Zone)
    (hcmd : p.command = "create") (hv : dnsParamsValid p = true)
    (hname : isTruthy p.name = true) (hrec : isTruthy p.record = true)
    (hz : c.get_zone s (pyStr p.name) = (.ok z, s1)) :
    (∃ rest, (gcDnsRun c p s).calls =
        .getZoneC (pyStr p.name) ::
        .createRecordC (pyStr p.record) z (dnsEffType p) (dnsEffData p) :: rest) ∧
    (isTruthy p.record_type = false → dnsEffType p = "A") ∧
    (isTruthy p.ttl = false → dnsEffTtl p = .defaulted 86400) ∧
    (isTruthy p.value = true → dnsEffValue p = pySplitComma (pyStr p.value)) ∧
    (isTruthy p.value = false → dnsEffValue p = []) := by
  refine ⟨?_, ?_, ?_, ?_, ?_⟩
  · rw [gcDnsRun_createRec_eq c p s hv hcmd hname hrec]
    exact dnsCreateRecord_calls_prefix c p s s1 z hz
  · intro h; simp [dnsEffType, h]
  · intro h; simp [dnsEffTtl, h]
  · intro h; simp [dnsEffValue, h]
  · intro h; simp [dnsEffValue, h]

/-- The concrete record-create parameters used by the C7 witness. -/
def pCreateRec : DnsParams :=
  { dnsP0 "create" with name := some "z1", record := some "foo.example.com."
                        value := some "1.2.3.4,5.6.7.8" }

/-- Witness for C7 at a concrete input: creating
`foo.example.com.` with unset `record_type`/`ttl` and
`value="1.2.3.4,5.6.7.8"` against the in-memory client. -/
theorem dns_record_create_submits_defaults_witness :
    (∃ rest, (gcDnsRun memDnsClient pCreateRec wZoneOnly).calls =
        .getZoneC (pyStr pCreateRec.name) ::
        .createRecordC (pyStr pCreateRec.record) zOne (dnsEffType pCreateRec)
          (dnsEffData pCreateRec) :: rest) ∧
    (isTruthy pCreateRec.record_type = false → dnsEffType pCreateRec = "A") ∧
    (isTruthy pCreateRec.ttl = false → dnsEffTtl pCreateRec = .defaulted 86400) ∧
    (isTruthy pCreateRec.value = true →
      dnsEffValue pCreateRec = pySplitComma (pyStr pCreateRec.value)) ∧
    (isTruthy pCreateRec.value = false → dnsEffValue pCreateRec = []) :=
  dns_record_create_submits_defaults _ memDnsClient pCreateRec wZoneOnly wZoneOnly zOne
    rfl rfl rfl rfl rfl

/-! ## C10: a 409 on cluster create skips the polling loop entirely -/

/-- C10: when the GKE create call fails with HTTP 409, the module
fetches the existing cluster and exits immediately with `changed=False`
and zero sleep/poll cycles — whatever `wait_for` says and whatever the
fetched cluster status is. -/
theorem gke_create_conflict_skips_polling (σ : Type) (c : GkeClient σ) (p : GkeParams)
    (fuel : Nat) (s s1 s2 : σ) (resp : GkeResp)
    (hstate : p.state = "present")
    (hcreate : c.create s p.project_id p.zone (make_cluster_body p) =
      (.error { status := 409 }, s1))
    (hget : c.get s1 p.project_id p.zone p.name = (.ok resp, s2)) :
    gkeRun c p fuel s =
      some { outcome := .exitOk false resp, state := s2, cycles := 0, mutated := false } := by
  unfold gkeRun gkePresent gkeCreateHandler gkeAfterCreate
  simp [hstate, hcreate, hget]

/-- Scripted client state for the C10 witness: create answers 409 and
the sole scripted fetch reports an `ERROR`-status cluster (which still
must not be polled). -/
def tr409 : GkeTrace :=
  { createR := .error { status := 409 }, deleteR := .ok respPending, gets := [.ok respError] }

/-- Witness for C10 at a concrete input: `wait_for=true` and an
existing cluster in status `ERROR`, yet zero poll cycles and
`changed=false`. -/
theorem gke_create_conflict_skips_polling_witness :
    gkeRun traceGkeClient gkeP 10 tr409 =
      some { outcome := .exitOk false respError, state := { tr409 with gets := [] }
             cycles := 0, mutated := false } :=
  gke_create_conflict_skips_polling _ traceGkeClient gkeP 10 tr409 tr409
    { tr409 with gets := [] } respError rfl rfl rfl

/-! ## C5: create-side polling terminates exactly on RUNNING -/

/-- Scripted client state for the C5 witness: create is accepted and
successive status fetches answer `PROVISIONING`, `PROVISIONING`,
`RUNNING` (the first is consumed by the fetch issued directly after the
create call, the next two by poll cycles). -/
def tr5 : GkeTrace :=
  { createR := .ok respPending, deleteR := .ok respPending
    gets := [.ok respPending, .ok respPending, .ok respRunning] }

/-- Scripted client state whose first fetch already reports
`RUNNING`. -/
def trRun : GkeTrace :=
  { createR := .ok respPending, deleteR := .ok respPending, gets := [.ok respRunning] }

/-- C5: against the scripted client whose successive status fetches
answer Pending, Pending, RUNNING, a create with `wait_for=true`
performs exactly two sleep-then-fetch cycles and exits with
`changed=true`; in general the create-side polling loop ends
successfully only with a fetch whose status is `"RUNNING"`, and a fetch
reporting `"RUNNING"` ends it successfully on that very cycle. -/
theorem gke_create_polling_terminates_on_running :
    ((gkeRun traceGkeClient gkeP 10 tr5).map (fun o => (o.outcome, o.cycles, o.mutated)) =
        some (.exitOk true respRunning, 2, true)) ∧
    (∀ (σ : Type) (c : GkeClient σ) (pr zo nm : String) (fuel : Nat),
        ∀ (s s1 : σ) (r : GkeResp) (cyc : Nat),
        gkePollCreate c pr zo nm fuel s = some (.done r, s1, cyc) →
        r.status = "RUNNING") ∧
    (∀ (σ : Type) (c : GkeClient σ) (pr zo nm : String) (fuel : Nat) (s s1 : σ) (r : GkeResp),
        c.get s pr zo nm = (.ok r, s1) → r.status = "RUNNING" →
        gkePollCreate c pr zo nm (fuel + 1) s = some (.done r, s1, 1)) := by
  refine ⟨rfl, ?_, ?_⟩
  · intro σ c pr zo nm fuel
    induction fuel with
    | zero => intro s s1 r cyc h; simp [gkePollCreate] at h
    | succ k ih =>
      intro s s1 r cyc h
      rw [gkePollCreate] at h
      rcases hg : c.get s pr zo nm with ⟨res, s2⟩
      rw [hg] at h
      cases res with
      | error e => simp at h
      | ok r2 =>
        by_cases hR : (r2.status == "RUNNING") = true
        · simp [hR] at h
          obtain ⟨h1, _, _⟩ := h
          rw [← h1]
          exact beq_iff_eq.mp hR
        · simp [hR] at h
          by_cases hE : r2.status = "ERROR" ∨ r2.status = "STATUS_UNSPECIFIED"
          · simp [hE] at h
          · rw [if_neg hE] at h
            rcases hrec : gkePollCreate c pr zo nm k s2 with _ | ⟨res3, s3, m⟩
            · rw [hrec] at h; simp at h
            · rw [hrec] at h
              simp at h
              obtain ⟨h1, _, _⟩ := h
              exact ih s2 s3 r m (by rw [hrec, h1])
  · intro σ c pr zo nm fuel s s1 r hg hR
    rw [gkePollCreate, hg]
    simp [hR]

/-- Witness for C5: the general conjuncts applied to the scripted
client whose first poll fetch answers `RUNNING`. -/
theorem gke_create_polling_terminates_on_running_witness :
    respRunning.status = "RUNNING" ∧
    gkePollCreate traceGkeClient "proj" "us-central1-f" "c1" 1 trRun =
      some (.done respRunning, { trRun with gets := [] }, 1) :=
  ⟨gke_create_polling_terminates_on_running.2.1 _ traceGkeClient "proj" "us-central1-f" "c1"
      1 trRun { trRun with gets := [] } respRunning 1
      (gke_create_polling_terminates_on_running.2.2 _ traceGkeClient "proj" "us-central1-f"
        "c1" 0 trRun { trRun with gets := [] } respRunning rfl rfl),
   gke_create_polling_terminates_on_running.2.2 _ traceGkeClient "proj" "us-central1-f"
      "c1" 0 trRun { trRun with gets := [] } respRunning rfl rfl⟩

/-! ## C6: terminal errors and NotFound during the polling loops -/

lemma gkePollCreate_error_step {σ : Type} (c : GkeClient σ) (pr zo nm : String)
    (fuel : Nat) (s s1 : σ) (r : GkeResp)
    (hg : c.get s pr zo nm = (.ok r, s1))
    (hE : r.status = "ERROR" ∨ r.status = "STATUS_UNSPECIFIED") :
    gkePollCreate c pr zo nm (fuel + 1) s =
      some (.failedP ("Error [" ++ r.status ++ "]: \x27" ++ r.statusMessage ++ "\x27"), s1, 1) := by
  rw [gkePollCreate, hg]
  rcases hE with h | h <;> simp [h]

/-- C6: during create-side polling, a fetch reporting a terminal error
status (`ERROR`/`STATUS_UNSPECIFIED`) makes the module fail fatally on
that very cycle with the provider status message — lifted to the whole
run in the second conjunct; during delete-side polling, a fetch error
404 ends the loop successfully, a fetch error other than 404 is
re-raised fatally on that cycle, and a successful fetch just continues
the loop. -/
theorem gke_polling_error_handling :
    (∀ (σ : Type) (c : GkeClient σ) (pr zo nm : String) (fuel : Nat) (s s1 : σ) (r : GkeResp),
        c.get s pr zo nm = (.ok r, s1) →
        r.status = "ERROR" ∨ r.status = "STATUS_UNSPECIFIED" →
        gkePollCreate c pr zo nm (fuel + 1) s =
          some (.failedP ("Error [" ++ r.status ++ "]: \x27" ++ r.statusMessage ++ "\x27"),
            s1, 1)) ∧
    (∀ (σ : Type) (c : GkeClient σ) (p : GkeParams) (fuel : Nat) (s s1 s2 s3 : σ)
        (r0 resp0 rerr : GkeResp),
        p.state = "present" → p.wait_for = true →
        c.create s p.project_id p.zone (make_cluster_body p) = (.ok r0, s1) →
        c.get s1 p.project_id p.zone p.name = (.ok resp0, s2) →
        c.get s2 p.project_id p.zone p.name = (.ok rerr, s3) →
        rerr.status = "ERROR" ∨ rerr.status = "STATUS_UNSPECIFIED" →
        gkeRun c p (fuel + 1) s =
          some { outcome := .failJsonG
                   ("Error [" ++ rerr.status ++ "]: \x27" ++ rerr.statusMessage ++ "\x27")
                 state := s3, cycles := 1, mutated := true }) ∧
    (∀ (σ : Type) (c : GkeClient σ) (pr zo nm : String) (fuel : Nat) (s s1 : σ) (e : HttpE),
        c.get s pr zo nm = (.error e, s1) → e.status = 404 →
        gkePollDelete c pr zo nm (fuel + 1) s = some (.goneP, s1, 1)) ∧
    (∀ (σ : Type) (c : GkeClient σ) (pr zo nm : String) (fuel : Nat) (s s1 : σ) (e : HttpE),
        c.get s pr zo nm = (.error e, s1) → e.status ≠ 404 →
        gkePollDelete c pr zo nm (fuel + 1) s = some (.raisedDP e, s1, 1)) ∧
    (∀ (σ : Type) (c : GkeClient σ) (pr zo nm : String) (fuel : Nat) (s s1 s2 : σ)
        (r : GkeResp) (res : PollDeleteRes) (m : Nat),
        c.get s pr zo nm = (.ok r, s1) →
        gkePollDelete c pr zo nm fuel s1 = some (res, s2, m) →
        gkePollDelete c pr zo nm (fuel + 1) s = some (res, s2, m + 1)) := by
  refine ⟨?_, ?_, ?_, ?_, ?_⟩
  · exact fun σ c pr zo nm fuel s s1 r hg hE =>
      gkePollCreate_error_step c pr zo nm fuel s s1 r hg hE
  · intro σ c p fuel s s1 s2 s3 r0 resp0 rerr hstate hwait hcreate hget1 hget2 hE
    unfold gkeRun gkePresent gkeAfterCreate
    simp [hstate, hwait, hcreate, hget1,
      gkePollCreate_error_step c p.project_id p.zone p.name fuel s2 s3 rerr hget2 hE]
  · intro σ c pr zo nm fuel s s1 e hg h404
    rw [gkePollDelete, hg]
    simp [h404]
  · intro σ c pr zo nm fuel s s1 e hg hne
    rw [gkePollDelete, hg]
    simp [hne]
  · intro σ c pr zo nm fuel s s1 s2 r res m hg hrec
    rw [gkePollDelete, hg]
    simp [hrec]

/-- Scripted client state whose sole fetch reports the `ERROR`
cluster. -/
def trE : GkeTrace :=
  { createR := .ok respPending, deleteR := .ok respPending, gets := [.ok respError] }

/-- Scripted client state whose fetches answer 404. -/
def trG404 : GkeTrace :=
  { createR := .ok respPending, deleteR := .ok respPending
    gets := [.error { status := 404 }] }

/-- Scripted client state whose sole fetch raises HTTP 503. -/
def trG503 : GkeTrace :=
  { createR := .ok respPending, deleteR := .ok respPending
    gets := [.error { status := 503 }] }

/-- Witness for C6: the step conjuncts applied to concrete scripted
clients (terminal `ERROR` on create polling, 404 and 503 on delete
polling). -/
theorem gke_polling_error_handling_witness :
    gkePollCreate traceGkeClient "proj" "us-central1-f" "c1" 3 trE =
      some (.failedP ("Error [" ++ respError.status ++ "]: \x27"
        ++ respError.statusMessage ++ "\x27"), { trE with gets := [] }, 1) ∧
    gkePollDelete traceGkeClient "proj" "us-central1-f" "c1" 3 trG404 =
      some (.goneP, { trG404 with gets := [] }, 1) ∧
    gkePollDelete traceGkeClient "proj" "us-central1-f" "c1" 3 trG503 =
      some (.raisedDP { status := 503 }, { trG503 with gets := [] }, 1) :=
  ⟨gke_polling_error_handling.1 _ traceGkeClient "proj" "us-central1-f" "c1" 2 trE
      { trE with gets := [] } respError rfl (Or.inl rfl),
   gke_polling_error_handling.2.2.1 _ traceGkeClient "proj" "us-central1-f" "c1" 2 trG404
      { trG404 with gets := [] } { status := 404 } rfl rfl,
   gke_polling_error_handling.2.2.2.1 _ traceGkeClient "proj" "us-central1-f" "c1" 2 trG503
      { trG503 with gets := [] } { status := 503 } rfl (by decide)⟩

/-! ## C3: create conflicts (HTTP 409) are tolerated, other create errors are fatal -/

/-- C3: a create hitting an already-existing resource (HTTP 409) does
not fail: gc_dns re-fetches the existing record (resp. zone, fetched
twice as in the source) and exits 0 with it as payload and
`changed=false`; gke fetches the existing cluster and exits 0 with
`changed=false`.  A create exception with any other `http_code` is
fatal for gc_dns with the unexpected-error message, and is re-raised by
gke. -/
theorem create_conflict_tolerated :
    (∀ (σ : Type) (c : DnsClient σ) (p : DnsParams) (s s1 s2 s3 : σ) (z : Zone) (r : DnsRecord),
        p.command = "create" → dnsParamsValid p = true →
        isTruthy p.name = true → isTruthy p.record = true →
        c.get_zone s (pyStr p.name) = (.ok z, s1) →
        c.create_record s1 (pyStr p.record) z (dnsEffType p) (dnsEffData p) =
          (.error (.http 409), s2) →
        c.get_record s2 (pyStr p.name) (dnsEffType p ++ ":" ++ pyStr p.record) = (.ok r, s3) →
        (gcDnsRun c p s).outcome =
          .exitOk { payload := .recordD r, changed := false, command := "create" }) ∧
    (∀ (σ : Type) (c : DnsClient σ) (p : DnsParams) (s s1 s2 s3 : σ) (z1 z2 : Zone),
        p.command = "create" → dnsParamsValid p = true →
        isTruthy p.name = true → isTruthy p.record = false →
        c.create_zone s p.dns_name (dnsZoneExtra p) = (.error (.http 409), s1) →
        c.get_zone s1 (pyStr p.name) = (.ok z1, s2) →
        c.get_zone s2 (pyStr p.name) = (.ok z2, s3) →
        (gcDnsRun c p s).outcome =
          .exitOk { payload := .zoneD z2, changed := false, command := "create" }) ∧
    (∀ (σ : Type) (c : GkeClient σ) (p : GkeParams) (fuel : Nat) (s s1 s2 : σ) (resp : GkeResp),
        p.state = "present" →
        c.create s p.project_id p.zone (make_cluster_body p) = (.error { status := 409 }, s1) →
        c.get s1 p.project_id p.zone p.name = (.ok resp, s2) →
        gkeRun c p fuel s =
          some { outcome := .exitOk false resp, state := s2, cycles := 0, mutated := false }) ∧
    (∀ (σ : Type) (c : DnsClient σ) (p : DnsParams) (s s1 s2 : σ) (z : Zone) (code : Nat),
        p.command = "create" → dnsParamsValid p = true →
        isTruthy p.name = true → isTruthy p.record = true →
        c.get_zone s (pyStr p.name) = (.ok z, s1) →
        c.create_record s1 (pyStr p.record) z (dnsEffType p) (dnsEffData p) =
          (.error (.http code), s2) →
        code ≠ 409 →
        (gcDnsRun c p s).outcome =
          .failJson (unexpected_error_msg (.http code)) (some false)) ∧
    (∀ (σ : Type) (c : GkeClient σ) (p : GkeParams) (fuel : Nat) (s s1 : σ) (e : HttpE),
        p.state = "present" →
        c.create s p.project_id p.zone (make_cluster_body p) = (.error e, s1) →
        e.status ≠ 409 →
        gkeRun c p fuel s =
          some { outcome := .raised e, state := s1, cycles := 0, mutated := false }) := by
  refine ⟨?_, ?_, ?_, ?_, ?_⟩
  · intro σ c p s s1 s2 s3 z r hcmd hv hname hrec hgz hcr hgr
    rw [gcDnsRun_createRec_eq c p s hv hcmd hname hrec]
    unfold finishDns dnsCreateRecord dnsCreateRecordTry
    simp [hgz, hcr, hgr, hcmd]
  · intro σ c p s s1 s2 s3 z1 z2 hcmd hv hname hrec hcz hg1 hg2
    rw [gcDnsRun_createZone_eq c p s hv hcmd hname hrec]
    unfold finishDns dnsCreateZone
    simp [hcz, hg1, hg2, hcmd]
  · intro σ c p fuel s s1 s2 resp hstate hcreate hget
    unfold gkeRun gkePresent gkeCreateHandler gkeAfterCreate
    simp [hstate, hcreate, hget]
  · intro σ c p s s1 s2 z code hcmd hv hname hrec hgz hcr hne
    rw [gcDnsRun_createRec_eq c p s hv hcmd hname hrec]
    unfold finishDns dnsCreateRecord dnsCreateRecordTry
    simp [hgz, hcr, hne]
  · intro σ c p fuel s s1 e hstate hcreate hne
    unfold gkeRun gkePresent gkeCreateHandler
    simp [hstate, hcreate, hne]

/-- The concrete zone-create parameters used by witnesses. -/
def pCreateZone : DnsParams :=
  { dnsP0 "create" with name := some "z1", dns_name := some "example.com." }

/-- A DNS client whose mutating calls fail with HTTP 500. -/
def err500DnsClient : DnsClient Unit where
  get_zone s _ := (.ok zOne, s)
  iterate_zones s := (.ok [zOne], s)
  iterate_records s _ := (.ok [], s)
  get_record s _ _ := (.error .recordNotFound, s)
  create_zone s _ _ := (.error (.http 500), s)
  create_record s _ _ _ _ := (.error (.http 500), s)
  delete_zone s _ := (.ok true, s)
  delete_record s _ := (.ok true, s)

/-- Witness for C3 at concrete inputs: record and zone creates that hit
an existing resource in the in-memory world, the scripted 409 cluster
create, and a record create failing with HTTP 500. -/
theorem create_conflict_tolerated_witness :
    (gcDnsRun memDnsClient pCreateRec wZoneRec).outcome =
      .exitOk { payload := .recordD recFoo, changed := false, command := "create" } ∧
    (gcDnsRun memDnsClient pCreateZone wZoneOnly).outcome =
      .exitOk { payload := .zoneD zOne, changed := false, command := "create" } ∧
    gkeRun traceGkeClient gkeP 10 tr409 =
      some { outcome := .exitOk false respError, state := { tr409 with gets := [] }
             cycles := 0, mutated := false } ∧
    (gcDnsRun err500DnsClient pCreateRec ()).outcome =
      .failJson (unexpected_error_msg (.http 500)) (some false) :=
  ⟨create_conflict_tolerated.1 _ memDnsClient pCreateRec wZoneRec wZoneRec wZoneRec wZoneRec
      zOne recFoo rfl rfl rfl rfl rfl rfl rfl,
   create_conflict_tolerated.2.1 _ memDnsClient pCreateZone wZoneOnly wZoneOnly wZoneOnly
      wZoneOnly zOne zOne rfl rfl rfl rfl rfl rfl rfl,
   create_conflict_tolerated.2.2.1 _ traceGkeClient gkeP 10 tr409 tr409
      { tr409 with gets := [] } respError rfl rfl rfl,
   create_conflict_tolerated.2.2.2.1 _ err500DnsClient pCreateRec () () () zOne 500
      rfl rfl rfl rfl rfl rfl (by decide)⟩

/-! ## C9: a falsy provider delete result is fatal, a truthy one is changed -/

/-- C9: on a DNS delete whose target fetch succeeded, a provider-level
delete call returning the failure signal `False` (without raising)
makes the module fail with the delete-failed message and
`changed=False`; only a truthy delete result yields an exit 0 with
`changed=true`.  Stated for both the record and the zone paths. -/
theorem dns_delete_failure_signal :
    (∀ (σ : Type) (c : DnsClient σ) (p : DnsParams) (s s1 s2 : σ) (r : DnsRecord) (b : Bool),
        p.command = "delete" → dnsParamsValid p = true →
        isTruthy p.name = true → isTruthy p.record = true →
        c.get_record s (pyStr p.name) (dnsEffType p ++ ":" ++ pyStr p.record) = (.ok r, s1) →
        c.delete_record s1 r = (.ok b, s2) →
        ((b = false → (gcDnsRun c p s).outcome =
            .failJson ("Failed to delete record " ++ pyStr p.record) (some false)) ∧
         (b = true → (gcDnsRun c p s).outcome =
            .exitOk { payload := .recordD r, changed := true, command := "delete" }))) ∧
    (∀ (σ : Type) (c : DnsClient σ) (p : DnsParams) (s s1 s2 : σ) (z : Zone) (b : Bool),
        p.command = "delete" → dnsParamsValid p = true →
        isTruthy p.name = true → isTruthy p.record = false →
        c.get_zone s (pyStr p.name) = (.ok z, s1) →
        c.delete_zone s1 z = (.ok b, s2) →
        ((b = false → (gcDnsRun c p s).outcome =
            .failJson ("Failed to delete zone " ++ pyStr p.name) (some false)) ∧
         (b = true → (gcDnsRun c p s).outcome =
            .exitOk { payload := .zoneD z, changed := true, command := "delete" }))) := by
  constructor
  · intro σ c p s s1 s2 r b hcmd hv hname hrec hget hdel
    constructor <;> intro hb <;>
      (rw [gcDnsRun_delete_eq c p s hv hcmd]
       unfold finishDns dnsDelete dnsDeleteTry
       simp [hname, hrec, hget, hdel, hb, hcmd])
  · intro σ c p s s1 s2 z b hcmd hv hname hrec hget hdel
    constructor <;> intro hb <;>
      (rw [gcDnsRun_delete_eq c p s hv hcmd]
       unfold finishDns dnsDelete dnsDeleteTry
       simp [hname, hrec, hget, hdel, hb, hcmd])

/-- The concrete zone-delete parameters used by witnesses. -/
def pDelZone : DnsParams := { dnsP0 "delete" with name := some "z1" }

/-- The concrete record-delete parameters used by witnesses. -/
def pDelRec : DnsParams := { pDelZone with record := some "foo.example.com." }

/-- Witness for C9 at concrete inputs: the falsy-delete client makes
both paths fail with `DeleteFailed`-style messages; the in-memory
client deletes with a truthy result and reports `changed=true`. -/
theorem dns_delete_failure_signal_witness :
    (gcDnsRun (falsyDnsClient recFoo zOne) pDelRec ()).outcome =
      .failJson ("Failed to delete record " ++ pyStr pDelRec.record) (some false) ∧
    (gcDnsRun (falsyDnsClient recFoo zOne) pDelZone ()).outcome =
      .failJson ("Failed to delete zone " ++ pyStr pDelZone.name) (some false) ∧
    (gcDnsRun memDnsClient pDelRec wZoneRec).outcome =
      .exitOk { payload := .recordD recFoo, changed := true, command := "delete" } :=
  ⟨(dns_delete_failure_signal.1 _ (falsyDnsClient recFoo zOne) pDelRec () () () recFoo false
      rfl rfl rfl rfl rfl rfl).1 rfl,
   (dns_delete_failure_signal.2 _ (falsyDnsClient recFoo zOne) pDelZone () () () zOne false
      rfl rfl rfl rfl rfl rfl).1 rfl,
   (dns_delete_failure_signal.1 _ memDnsClient pDelRec wZoneRec wZoneRec
      { zones := [(zOne, [])] } recFoo true rfl rfl rfl rfl rfl rfl).2 rfl⟩

/-! ## C2: delete of an absent resource is an idempotent success -/

/-- A DNS client whose record delete raises a generic HTTP 404. -/
def err404DnsClient : DnsClient Unit where
  get_zone s _ := (.ok zOne, s)
  iterate_zones s := (.ok [zOne], s)
  iterate_records s _ := (.ok [recFoo], s)
  get_record s _ _ := (.ok recFoo, s)
  create_zone s _ _ := (.error (.http 404), s)
  create_record s _ _ _ _ := (.error (.http 404), s)
  delete_zone s _ := (.error (.http 404), s)
  delete_record s _ := (.error (.http 404), s)

/-- The empty DNS world. -/
def wEmpty : DnsWorld := { zones := [] }

/-- C2: a delete whose target is absent — the initial fetch raises the
typed not-found error (record or zone), or the delete call itself
raises HTTP 404, or the cluster delete answers 404 — exits 0 with
`changed=false` instead of failing.  Consequently deleting the same
identifier twice against the in-memory worlds yields `changed=true`
then `changed=false` (closing conjuncts, for the DNS zone and for the
GKE cluster with `wait_for=true`). -/
theorem delete_absent_idempotent :
    (∀ (σ : Type) (c : DnsClient σ) (p : DnsParams) (s s1 : σ),
        p.command = "delete" → dnsParamsValid p = true →
        isTruthy p.name = true → isTruthy p.record = true →
        c.get_record s (pyStr p.name) (dnsEffType p ++ ":" ++ pyStr p.record) =
          (.error .recordNotFound, s1) →
        (gcDnsRun c p s).outcome =
          .exitOk { payload := .addRecordKeys .emptyP p.record (some (dnsEffType p)) p.name
                    changed := false, command := "delete" }) ∧
    (∀ (σ : Type) (c : DnsClient σ) (p : DnsParams) (s s1 : σ),
        p.command = "delete" → dnsParamsValid p = true →
        isTruthy p.name = true → isTruthy p.record = false →
        c.get_zone s (pyStr p.name) = (.error .zoneNotFound, s1) →
        (gcDnsRun c p s).outcome =
          .exitOk { payload := .addNameKey .emptyP p.name
                    changed := false, command := "delete" }) ∧
    (∀ (σ : Type) (c : DnsClient σ) (p : DnsParams) (s s1 s2 : σ) (r : DnsRecord),
        p.command = "delete" → dnsParamsValid p = true →
        isTruthy p.name = true → isTruthy p.record = true →
        c.get_record s (pyStr p.name) (dnsEffType p ++ ":" ++ pyStr p.record) = (.ok r, s1) →
        c.delete_record s1 r = (.error (.http 404), s2) →
        (gcDnsRun c p s).outcome =
          .exitOk { payload := .recordD r, changed := false, command := "delete" }) ∧
    (∀ (σ : Type) (c : GkeClient σ) (p : GkeParams) (fuel : Nat) (s s1 : σ),
        p.state = "absent" →
        c.delete s p.project_id p.zone p.name = (.error { status := 404 }, s1) →
        gkeRun c p fuel s =
          some { outcome := .exitOk false (gkeFinalDeleteResp p), state := s1
                 cycles := 0, mutated := false }) ∧
    ((gcDnsRun memDnsClient pDelZone wZoneOnly).outcome =
        .exitOk { payload := .zoneD zOne, changed := true, command := "delete" } ∧
      (gcDnsRun memDnsClient pDelZone (gcDnsRun memDnsClient pDelZone wZoneOnly).state).outcome =
        .exitOk { payload := .addNameKey .emptyP (some "z1")
                  changed := false, command := "delete" }) ∧
    ((gkeRun memGkeClient gkePDel 3 (some respRunning)).map
        (fun o => (o.outcome, o.state, o.cycles)) =
        some (.exitOk true (gkeFinalDeleteResp gkePDel), none, 1) ∧
      (gkeRun memGkeClient gkePDel 3 none).map (fun o => (o.outcome, o.state, o.cycles)) =
        some (.exitOk false (gkeFinalDeleteResp gkePDel), none, 0)) := by
  refine ⟨?_, ?_, ?_, ?_, ⟨rfl, rfl⟩, ⟨rfl, rfl⟩⟩
  · intro σ c p s s1 hcmd hv hname hrec hget
    rw [gcDnsRun_delete_eq c p s hv hcmd]
    unfold finishDns dnsDelete dnsDeleteTry
    simp [hname, hrec, hget, hcmd]
  · intro σ c p s s1 hcmd hv hname hrec hget
    rw [gcDnsRun_delete_eq c p s hv hcmd]
    unfold finishDns dnsDelete dnsDeleteTry
    simp [hname, hrec, hget, hcmd]
  · intro σ c p s s1 s2 r hcmd hv hname hrec hget hdel
    rw [gcDnsRun_delete_eq c p s hv hcmd]
    unfold finishDns dnsDelete dnsDeleteTry
    simp [hname, hrec, hget, hdel, hcmd]
  · intro σ c p fuel s s1 hstate hdel
    unfold gkeRun gkeAbsent gkeAfterDelete
    simp [hstate, hdel]

/-- Witness for C2 at concrete inputs: absent record, absent zone,
generic 404 from the delete call, and absent cluster. -/
theorem delete_absent_idempotent_witness :
    (gcDnsRun memDnsClient pDelRec wZoneOnly).outcome =
      .exitOk { payload := .addRecordKeys .emptyP pDelRec.record
                  (some (dnsEffType pDelRec)) pDelRec.name
                changed := false, command := "delete" } ∧
    (gcDnsRun memDnsClient pDelZone wEmpty).outcome =
      .exitOk { payload := .addNameKey .emptyP pDelZone.name
                changed := false, command := "delete" } ∧
    (gcDnsRun err404DnsClient pDelRec ()).outcome =
      .exitOk { payload := .recordD recFoo, changed := false, command := "delete" } ∧
    gkeRun memGkeClient gkePDel 3 none =
      some { outcome := .exitOk false (gkeFinalDeleteResp gkePDel), state := none
             cycles := 0, mutated := false } :=
  ⟨delete_absent_idempotent.1 _ memDnsClient pDelRec wZoneOnly wZoneOnly
      rfl rfl rfl rfl rfl,
   delete_absent_idempotent.2.1 _ memDnsClient pDelZone wEmpty wEmpty
      rfl rfl rfl rfl rfl,
   delete_absent_idempotent.2.2.1 _ err404DnsClient pDelRec () () () recFoo
      rfl rfl rfl rfl rfl rfl,
   delete_absent_idempotent.2.2.2.1 _ memGkeClient gkePDel 3 none none rfl rfl⟩

/-! ## Whole-run invariants of gc_dns -/

/-- Invariant of a command branch result: a success carries
`changed=True` exactly when a mutating provider call was accepted
(`changed` unset counts as `False`), and an in-branch `fail_json`
always passes `changed=False` and a nonempty message. -/
def branchInv {σ : Type} (b : BranchRes σ) : Prop :=
  (∀ pl ch, b.res = .ok pl ch → ch.getD false = b.mutated) ∧
  (∀ m ch, b.res = .fail m ch → ch = some false ∧ 0 < m.length)

lemma dnsList_inv {σ : Type} (c : DnsClient σ) (p : DnsParams) (s : σ) :
    branchInv (dnsList c p s) := by
  unfold branchInv dnsList dnsListTry
  repeat' split
  all_goals refine ⟨fun pl ch h => ?_, fun m ch h => ?_⟩
  all_goals cases h
  all_goals first
    | rfl
    | exact ⟨rfl, unexpected_error_msg_pos _⟩
    | exact ⟨rfl, by (repeat' apply len_append_pos); decide⟩

lemma dnsGet_inv {σ : Type} (c : DnsClient σ) (p : DnsParams) (s : σ) :
    branchInv (dnsGet c p s) := by
  unfold branchInv dnsGet
  repeat' split
  all_goals refine ⟨fun pl ch h => ?_, fun m ch h => ?_⟩
  all_goals cases h
  all_goals first
    | rfl
    | exact ⟨rfl, unexpected_error_msg_pos _⟩
    | exact ⟨rfl, by (repeat' apply len_append_pos); decide⟩

lemma dnsCreateRecord_inv {σ : Type} (c : DnsClient σ) (p : DnsParams) (s : σ) :
    branchInv (dnsCreateRecord c p s) := by
  unfold branchInv dnsCreateRecord dnsCreateRecordTry
  repeat' split
  all_goals refine ⟨fun pl ch h => ?_, fun m ch h => ?_⟩
  all_goals cases h
  all_goals first
    | rfl
    | exact ⟨rfl, unexpected_error_msg_pos _⟩
    | exact ⟨rfl, by (repeat' apply len_append_pos); decide⟩

lemma dnsCreateZone_inv {σ : Type} (c : DnsClient σ) (p : DnsParams) (s : σ) :
    branchInv (dnsCreateZone c p s) := by
  unfold branchInv dnsCreateZone
  repeat' split
  all_goals refine ⟨fun pl ch h => ?_, fun m ch h => ?_⟩
  all_goals cases h
  all_goals first
    | rfl
    | exact ⟨rfl, unexpected_error_msg_pos _⟩
    | exact ⟨rfl, by (repeat' apply len_append_pos); decide⟩

lemma dnsDeleteTry_inv {σ : Type} (c : DnsClient σ) (p : DnsParams) (s : σ) :
    (∀ pl ch s1 cs mu, dnsDeleteTry c p s = (.okOut pl ch, s1, cs, mu) →
        ch = some true ∧ mu = true) ∧
    (∀ m s1 cs mu, dnsDeleteTry c p s = (.failedNow m, s1, cs, mu) →
        mu = false ∧ 0 < m.length) ∧
    (∀ e out s1 cs mu, dnsDeleteTry c p s = (.raisedE e out, s1, cs, mu) →
        mu = false) := by
  unfold dnsDeleteTry
  repeat' split
  all_goals
    refine ⟨fun pl ch s1 cs mu h => ?_, fun m s1 cs mu h => ?_,
      fun e out s1 cs mu h => ?_⟩
  all_goals
    injection h with hres hrest
  all_goals
    try cases hres
  all_goals
    injection hrest with hA hrest2
  all_goals
    injection hrest2 with hB hC
  all_goals cases hC
  all_goals first
    | exact ⟨rfl, rfl⟩
    | rfl
    | exact ⟨rfl, by (repeat' apply len_append_pos); decide⟩

lemma dnsDelete_inv {σ : Type} (c : DnsClient σ) (p : DnsParams) (s : σ) :
    branchInv (dnsDelete c p s) := by
  obtain ⟨hok, hfail, hraise⟩ := dnsDeleteTry_inv c p s
  unfold dnsDelete
  split
  · exact ⟨fun pl ch h => (by cases h), fun m ch h => (by cases h; exact ⟨rfl, by decide⟩)⟩
  · split
    next pl ch s1 cs mu heq =>
      obtain ⟨hch, hmu⟩ := hok _ _ _ _ _ heq
      subst hch
      subst hmu
      exact ⟨fun pl2 ch2 h => (by cases h; rfl), fun m ch2 h => (by cases h)⟩
    next m s1 cs mu heq =>
      refine ⟨fun pl2 ch2 h => (by cases h), fun m2 ch2 h => ?_⟩
      cases h
      exact ⟨rfl, (hfail _ _ _ _ heq).2⟩
    next out s1 cs mu heq =>
      have hmu := hraise _ _ _ _ _ heq
      subst hmu
      exact ⟨fun pl2 ch2 h => (by cases h; rfl), fun m ch2 h => (by cases h)⟩
    next out s1 cs mu heq =>
      have hmu := hraise _ _ _ _ _ heq
      subst hmu
      exact ⟨fun pl2 ch2 h => (by cases h; rfl), fun m ch2 h => (by cases h)⟩
    next code out s1 cs mu heq =>
      have hmu := hraise _ _ _ _ _ heq
      subst hmu
      split
      · exact ⟨fun pl2 ch2 h => (by cases h; rfl), fun m ch2 h => (by cases h)⟩
      · exact ⟨fun pl2 ch2 h => (by cases h),
          fun m ch2 h => (by cases h; exact ⟨rfl, unexpected_error_msg_pos _⟩)⟩

lemma dnsCreate_inv {σ : Type} (c : DnsClient σ) (p : DnsParams) (s : σ) :
    branchInv (dnsCreate c p s) := by
  unfold dnsCreate
  split
  · exact ⟨fun pl ch h => (by cases h), fun m ch h => (by cases h; exact ⟨rfl, by decide⟩)⟩
  · split
    · exact dnsCreateRecord_inv c p s
    · exact dnsCreateZone_inv c p s

lemma finishDns_inv {σ : Type} (cmd : String) (b : BranchRes σ) (h : branchInv b) :
    (∀ out, (finishDns cmd b).outcome = .exitOk out →
        out.changed = (finishDns cmd b).mutated) ∧
    (∀ m ch, (finishDns cmd b).outcome = .failJson m ch →
        ch = some false ∧ 0 < m.length) := by
  obtain ⟨h1, h2⟩ := h
  unfold finishDns
  constructor
  · intro out hout
    cases hres : b.res with
    | ok pl ch =>
      rw [hres] at hout
      cases hout
      exact h1 pl ch hres
    | fail m ch => rw [hres] at hout; cases hout
    | crash => rw [hres] at hout; cases hout
  · intro m ch hout
    cases hres : b.res with
    | ok pl ch2 => rw [hres] at hout; cases hout
    | fail m2 ch2 =>
      rw [hres] at hout
      cases hout
      exact h2 m ch hres
    | crash => rw [hres] at hout; cases hout

/-- Invariant of a full gc_dns run: an exit-0 output has `changed=true`
exactly when a mutating provider call was accepted, and every
`fail_json` exit passes `changed=False` and a nonempty message. -/
lemma gcDnsRun_inv {σ : Type} (c : DnsClient σ) (p : DnsParams) (s : σ) :
    (∀ out, (gcDnsRun c p s).outcome = .exitOk out →
        out.changed = (gcDnsRun c p s).mutated) ∧
    (∀ m ch, (gcDnsRun c p s).outcome = .failJson m ch →
        ch = some false ∧ 0 < m.length) := by
  unfold gcDnsRun
  repeat' split
  all_goals first
    | exact finishDns_inv _ _ (dnsList_inv c p s)
    | exact finishDns_inv _ _ (dnsGet_inv c p s)
    | exact finishDns_inv _ _ (dnsCreate_inv c p s)
    | exact finishDns_inv _ _ (dnsDelete_inv c p s)
    | exact ⟨fun out h => (by cases h),
        fun m ch h =>
          (by cases h; exact ⟨rfl, by (repeat' apply len_append_pos); decide⟩)⟩

/-! ## Whole-run invariants of gke -/

lemma gkePollCreate_failed_msg {σ : Type} (c : GkeClient σ) (pr zo nm : String) :
    ∀ (fuel : Nat) (s s1 : σ) (m : String) (n : Nat),
      gkePollCreate c pr zo nm fuel s = some (.failedP m, s1, n) → 0 < m.length := by
  intro fuel
  induction fuel with
  | zero => intro s s1 m n h; simp [gkePollCreate] at h
  | succ k ih =>
    intro s s1 m n h
    rw [gkePollCreate] at h
    rcases hg : c.get s pr zo nm with ⟨res, s2⟩
    rw [hg] at h
    cases res with
    | error e => simp at h
    | ok r =>
      by_cases hR : (r.status == "RUNNING") = true
      · simp [hR] at h
      · simp [hR] at h
        by_cases hE : r.status = "ERROR" ∨ r.status = "STATUS_UNSPECIFIED"
        · simp [hE] at h
          obtain ⟨h1, _, _⟩ := h
          subst h1
          exact len_append_pos _ _ (len_append_pos _ _ (len_append_pos _ _
            (len_append_pos _ _ (by decide))))
        · rw [if_neg hE] at h
          rcases hrec : gkePollCreate c pr zo nm k s2 with _ | ⟨res3, s3, n3⟩
          · rw [hrec] at h; simp at h
          · rw [hrec] at h
            simp at h
            obtain ⟨h1, _, _⟩ := h
            exact ih s2 s3 m n3 (by rw [hrec, h1])

lemma gkeAfterCreate_inv {σ : Type} (c : GkeClient σ) (p : GkeParams) (fuel : Nat) (s : σ)
    (resp : GkeResp) (ch pol mu : Bool) (o : GkeRunOut σ)
    (h : gkeAfterCreate c p fuel s resp ch pol mu = some o) :
    (∀ b r, o.outcome = .exitOk b r → b = ch ∧ o.mutated = mu) ∧
    (∀ m, o.outcome = .failJsonG m → 0 < m.length) := by
  unfold gkeAfterCreate at h
  split at h
  · rcases hq : gkePollCreate c p.project_id p.zone p.name fuel s with _ | ⟨res, s1, n⟩
    · rw [hq] at h; cases h
    · rw [hq] at h
      cases res with
      | done r =>
        cases h
        exact ⟨fun b r2 hbr => (by cases hbr; exact ⟨rfl, rfl⟩), fun m hm => (by cases hm)⟩
      | failedP m =>
        cases h
        exact ⟨fun b r hbr => (by cases hbr),
          fun m2 hm => (by
            cases hm
            exact gkePollCreate_failed_msg c p.project_id p.zone p.name fuel s s1 m n hq)⟩
      | raisedP e =>
        cases h
        exact ⟨fun b r hbr => (by cases hbr), fun m hm => (by cases hm)⟩
  · cases h
    exact ⟨fun b r hbr => (by cases hbr; exact ⟨rfl, rfl⟩), fun m hm => (by cases hm)⟩

lemma gkeCreateHandler_inv {σ : Type} (c : GkeClient σ) (p : GkeParams) (fuel : Nat)
    (s : σ) (e : HttpE) (mu : Bool) (o : GkeRunOut σ)
    (h : gkeCreateHandler c p fuel s e mu = some o) :
    (∀ b r, o.outcome = .exitOk b r → b = false ∧ o.mutated = mu ∧ e.status = 409) ∧
    (∀ m, o.outcome = .failJsonG m → 0 < m.length) := by
  unfold gkeCreateHandler at h
  split at h
  · rename_i h409
    rcases hg : c.get s p.project_id p.zone p.name with ⟨res, s1⟩
    rw [hg] at h
    cases res with
    | ok resp =>
      obtain ⟨h1, h2⟩ := gkeAfterCreate_inv c p fuel s1 resp false false mu o h
      exact ⟨fun b r hbr => ⟨(h1 b r hbr).1, (h1 b r hbr).2, beq_iff_eq.mp h409⟩, h2⟩
    | error e2 =>
      cases h
      exact ⟨fun b r hbr => (by cases hbr), fun m hm => (by cases hm)⟩
  · cases h
    exact ⟨fun b r hbr => (by cases hbr), fun m hm => (by cases hm)⟩

lemma gkeAfterDelete_inv {σ : Type} (c : GkeClient σ) (p : GkeParams) (fuel : Nat)
    (s : σ) (ch pol mu : Bool) (o : GkeRunOut σ)
    (h : gkeAfterDelete c p fuel s ch pol mu = some o) :
    (∀ b r, o.outcome = .exitOk b r → b = ch ∧ o.mutated = mu) ∧
    (∀ m, o.outcome = .failJsonG m → False) := by
  unfold gkeAfterDelete at h
  split at h
  · rcases hq : gkePollDelete c p.project_id p.zone p.name fuel s with _ | ⟨res, s1, n⟩
    · rw [hq] at h; cases h
    · rw [hq] at h
      cases res with
      | goneP =>
        cases h
        exact ⟨fun b r hbr => (by cases hbr; exact ⟨rfl, rfl⟩), fun m hm => (by cases hm)⟩
      | raisedDP e =>
        cases h
        exact ⟨fun b r hbr => (by cases hbr), fun m hm => (by cases hm)⟩
  · cases h
    exact ⟨fun b r hbr => (by cases hbr; exact ⟨rfl, rfl⟩), fun m hm => (by cases hm)⟩

/-- On every run that exits through `exit_json`, the `changed` flag
equals the mutation flag — provided the status fetch for this cluster
can never answer HTTP 409 (a conflict is only raised by `create`). -/
lemma gkeRun_exit_changed {σ : Type} (c : GkeClient σ) (p : GkeParams) (fuel : Nat)
    (s : σ) (o : GkeRunOut σ)
    (hGet : ∀ st : σ, (c.get st p.project_id p.zone p.name).1 ≠ .error { status := 409 })
    (h : gkeRun c p fuel s = some o) :
    ∀ b r, o.outcome = .exitOk b r → b = o.mutated := by
  unfold gkeRun at h
  split at h
  · unfold gkePresent at h
    split at h
    next r0 s1 heqc =>
      split at h
      next resp s2 heqg =>
        intro b r hbr
        obtain ⟨hb, hmu⟩ :=
          (gkeAfterCreate_inv c p fuel s2 resp true p.wait_for true o h).1 b r hbr
        rw [hb, hmu]
      next e s2 heqg =>
        intro b r hbr
        obtain ⟨_, _, h409⟩ := (gkeCreateHandler_inv c p fuel s2 e true o h).1 b r hbr
        exfalso
        have he : e = { status := 409 } := by cases e; simpa using h409
        exact hGet s1 (by rw [heqg, he])
    next e s1 heqc =>
      intro b r hbr
      obtain ⟨hb, hmu, _⟩ := (gkeCreateHandler_inv c p fuel s1 e false o h).1 b r hbr
      rw [hb, hmu]
  · split at h
    · unfold gkeAbsent at h
      split at h
      next r0 s1 heqd =>
        intro b r hbr
        obtain ⟨hb, hmu⟩ :=
          (gkeAfterDelete_inv c p fuel s1 true p.wait_for true o h).1 b r hbr
        rw [hb, hmu]
      next e s1 heqd =>
        split at h
        · intro b r hbr
          obtain ⟨hb, hmu⟩ :=
            (gkeAfterDelete_inv c p fuel s1 false false false o h).1 b r hbr
          rw [hb, hmu]
        · cases h
          intro b r hbr
          cases hbr
    · cases h
      intro b r hbr
      cases hbr

/-- Every `fail_json` exit of a gke run carries a nonempty message. -/
lemma gkeRun_fail_msg {σ : Type} (c : GkeClient σ) (p : GkeParams) (fuel : Nat)
    (s : σ) (o : GkeRunOut σ) (h : gkeRun c p fuel s = some o) :
    ∀ m, o.outcome = .failJsonG m → 0 < m.length := by
  unfold gkeRun at h
  split at h
  · unfold gkePresent at h
    split at h
    next r0 s1 heqc =>
      split at h
      next resp s2 heqg =>
        exact (gkeAfterCreate_inv c p fuel s2 resp true p.wait_for true o h).2
      next e s2 heqg =>
        exact (gkeCreateHandler_inv c p fuel s2 e true o h).2
    next e s1 heqc =>
      exact (gkeCreateHandler_inv c p fuel s1 e false o h).2
  · split at h
    · unfold gkeAbsent at h
      split at h
      next r0 s1 heqd =>
        exact fun m hm =>
          ((gkeAfterDelete_inv c p fuel s1 true p.wait_for true o h).2 m hm).elim
      next e s1 heqd =>
        split at h
        · exact fun m hm =>
            ((gkeAfterDelete_inv c p fuel s1 false false false o h).2 m hm).elim
        · cases h
          exact fun m hm => (by cases hm)
    · cases h
      intro m hm
      cases hm
      exact len_append_pos _ _ (len_append_pos _ _ (by decide))

/-! ## C1: `changed` is true iff a mutating call was accepted (amended) -/

/-- Scripted client state for the C1 counterexample: create accepted,
fetch answers Pending, then the first poll cycle answers a terminal
`ERROR` status. -/
def trErr : GkeTrace :=
  { createR := .ok respPending, deleteR := .ok respPending
    gets := [.ok respPending, .ok respError] }

/-- The run result of the absent-cluster delete used by the C1
witness. -/
def gkeDelAbsentOut : GkeRunOut (Option GkeResp) :=
  { outcome := .exitOk false (gkeFinalDeleteResp gkePDel), state := none,
    cycles := 0, mutated := false }

/-- The run result of the polling-ERROR create used by the C8
witness. -/
def gkeErrOut : GkeRunOut GkeTrace :=
  { outcome := .failJsonG "Error [ERROR]: \x27boom\x27",
    state := { trErr with gets := [] }, cycles := 1, mutated := true }

/-- C1 (amended): on every invocation that exits successfully, the
`changed` field of the single result mapping is true exactly when a
create/delete provider call was accepted — list/get never set it, a
409-create and an absent-delete leave it false, an accepted
create/delete sets it true.  A fatal exit never reports
`changed=true`.  (The GKE conjunct assumes status fetches never answer
HTTP 409; the amendment restricts the original claim to successful
exits — see the counterexample.) -/
theorem changed_true_iff_mutation_on_success :
    (∀ (σ : Type) (c : DnsClient σ) (p : DnsParams) (s : σ) (out : DnsOutput),
        (gcDnsRun c p s).outcome = .exitOk out →
        out.changed = (gcDnsRun c p s).mutated) ∧
    (∀ (σ : Type) (c : DnsClient σ) (p : DnsParams) (s : σ) (m : String) (ch : Option Bool),
        (gcDnsRun c p s).outcome = .failJson m ch → ch ≠ some true) ∧
    (∀ (σ : Type) (c : GkeClient σ) (p : GkeParams) (fuel : Nat) (s : σ) (o : GkeRunOut σ),
        (∀ st : σ, (c.get st p.project_id p.zone p.name).1 ≠ .error { status := 409 }) →
        gkeRun c p fuel s = some o →
        ∀ b r, o.outcome = .exitOk b r → b = o.mutated) := by
  refine ⟨?_, ?_, ?_⟩
  · exact fun σ c p s => (gcDnsRun_inv c p s).1
  · intro σ c p s m ch h
    rw [((gcDnsRun_inv c p s).2 m ch h).1]
    simp
  · exact fun σ c p fuel s o hGet h => gkeRun_exit_changed c p fuel s o hGet h

/-- Witness for C1 at concrete inputs: an accepted zone delete
(`changed=true = mutated`), a fatal `DeleteFailed` exit (`changed`
not `true`), and an absent cluster delete (`changed=false = mutated`). -/
theorem changed_true_iff_mutation_on_success_witness :
    (DnsOutput.changed { payload := .zoneD zOne, changed := true, command := "delete" } =
      (gcDnsRun memDnsClient pDelZone wZoneOnly).mutated) ∧
    (some false ≠ some true) ∧
    (false = gkeDelAbsentOut.mutated) :=
  ⟨changed_true_iff_mutation_on_success.1 _ memDnsClient pDelZone wZoneOnly
      { payload := .zoneD zOne, changed := true, command := "delete" } rfl,
   changed_true_iff_mutation_on_success.2.1 _ (falsyDnsClient recFoo zOne) pDelRec ()
      ("Failed to delete record " ++ pyStr pDelRec.record) (some false) rfl,
   changed_true_iff_mutation_on_success.2.2 _ memGkeClient gkePDel 3 none
      gkeDelAbsentOut
      (fun st => by cases st <;> simp [memGkeClient]) rfl
      false (gkeFinalDeleteResp gkePDel) rfl⟩

/-- Counterexample to C1 as stated: the provider accepts the cluster
create (`mutated = true`), but the first poll cycle reports a terminal
`ERROR` status, so the module fails fatally without ever producing a
result mapping with `changed=true` — an accepted create whose
invocation does not report `changed=true`. -/
theorem changed_true_iff_mutation_cex :
    (gkeRun traceGkeClient gkeP 10 trErr).map (fun o => (o.outcome, o.mutated)) =
      some (.failJsonG "Error [ERROR]: \x27boom\x27", true) := rfl

/-! ## C8: exit and error reporting (amended) -/

/-- Scripted client state for the C8 counterexample: the cluster create
raises HTTP 500, which the module re-raises. -/
def tr500 : GkeTrace :=
  { createR := .error { status := 500 }, deleteR := .ok respPending, gets := [] }

/-- C8 (amended): a successful run exits 0 with the output mapping
(modelled by the `exitOk` outcome); every fatal exit taken through
`fail_json` carries a nonempty human-readable `msg`, with
`changed=False` passed explicitly by the DNS module (the GKE
`fail_json` calls pass no `changed` at all); but provider exceptions
re-raised by gke abort the process without any module-produced `msg` —
see the counterexample. -/
theorem fatal_exit_msg_reporting :
    (∀ (σ : Type) (c : DnsClient σ) (p : DnsParams) (s : σ) (m : String) (ch : Option Bool),
        (gcDnsRun c p s).outcome = .failJson m ch → ch = some false ∧ 0 < m.length) ∧
    (∀ (σ : Type) (c : GkeClient σ) (p : GkeParams) (fuel : Nat) (s : σ)
        (o : GkeRunOut σ) (m : String),
        gkeRun c p fuel s = some o → o.outcome = .failJsonG m → 0 < m.length) :=
  ⟨fun σ c p s => (gcDnsRun_inv c p s).2,
   fun σ c p fuel s o m h hm => gkeRun_fail_msg c p fuel s o h m hm⟩

/-- Witness for C8 at concrete inputs: the `DeleteFailed` exit of the
falsy-delete client, and the polling-`ERROR` exit of the scripted
client. -/
theorem fatal_exit_msg_reporting_witness :
    (some false = some false ∧
      0 < ("Failed to delete record " ++ pyStr pDelRec.record).length) ∧
    0 < ("Error [ERROR]: \x27boom\x27" : String).length :=
  ⟨fatal_exit_msg_reporting.1 _ (falsyDnsClient recFoo zOne) pDelRec ()
      ("Failed to delete record " ++ pyStr pDelRec.record) (some false) rfl,
   fatal_exit_msg_reporting.2 _ traceGkeClient gkeP 10 trErr gkeErrOut
      "Error [ERROR]: \x27boom\x27" rfl rfl⟩

/-- Counterexample to C8 as stated: a cluster create failing with HTTP
500 is re-raised (`raise e`), terminating the run with no
module-produced result mapping: the `raised` outcome carries no `msg`
field at all, unlike every `fail_json` exit. -/
theorem gke_reraised_exception_without_msg_cex :
    (gkeRun traceGkeClient gkeP 10 tr500).map (fun o => o.outcome) =
      some (.raised { status := 500 }) ∧
    (∀ m, (GkeOutcome.raised { status := 500 }) ≠ .failJsonG m) :=
  ⟨rfl, fun m h => by cases h⟩

end GcModules
